import Mathlib

/-!
Verification of the yw2html core (pywriter) against its specification.

The definitions below are shallow embeddings of the Python source:

* pywriter/model/scene.py        -- Scene record, word/letter counting
* pywriter/model/chapter.py      -- Chapter record
* pywriter/model/world_element.py, basic_element.py -- entity records
* pywriter/model/splitter.py     -- Splitter.split_scenes
* pywriter/model/id_generator.py -- create_id
* pywriter/yw/yw7_file.py        -- read (scenes/chapters sections), type codec
                                    tables, merge field rules, adjust_scene_types,
                                    _write_element_tree, _postprocess_xml_file
* pywriter/file/file_export.py   -- FileExport._get_scenes/_get_chapters/write

Python dicts are modelled as insertion-ordered association lists, optional
attributes (None) as Option, machine text as Lean String (code points, matching
Python's str).
-/

namespace YW2Html

/-! ## Python string primitives -/

/-- Decimal digit character, as produced by Python str() on a digit value. -/
def digitChar (d : Nat) : Char := Char.ofNat (48 + d)

/-- Numeric value of a decimal digit character. -/
def digitVal (c : Char) : Nat := c.toNat - 48

/-- Accumulator pass of the decimal rendering of a natural number, with
explicit fuel so that it reduces by iota; fuel n + 1 always suffices because
the argument shrinks by a factor of ten each step. -/
def natToStrGo : Nat → Nat → List Char → List Char
  | 0, n, acc => digitChar n :: acc
  | fuel + 1, n, acc =>
    if n < 10 then digitChar n :: acc
    else natToStrGo fuel (n / 10) (digitChar (n % 10) :: acc)

/-- Python str() of a non-negative int: canonical decimal rendering. -/
def natToStr (n : Nat) : String := ⟨natToStrGo n n []⟩

/-- Value of a list of decimal digit characters (used to invert natToStr). -/
def listVal (cs : List Char) : Nat := cs.foldl (fun a c => 10 * a + digitVal c) 0

/-- Python int() on a string of decimal digits.  The source only applies int()
to entity-id strings, which are decimal; non-digit characters (on which Python
would raise ValueError) contribute junk digit values here. -/
def pyInt (s : String) : Nat := listVal s.data

/-- Python truthiness of an optional string: None and the empty string are falsy. -/
def truthyStr : Option String → Bool
  | none => false
  | some s => s ≠ ""

/-- Python truthiness of an optional bool: None is falsy. -/
def truthyBool : Option Bool → Bool
  | none => false
  | some b => b

/-- Python str.split() whitespace set (the source data is ASCII). -/
def isPySpace (c : Char) : Bool :=
  c = ' ' ∨ c = '\t' ∨ c = '\n' ∨ c = '\r' ∨ c = '\x0b' ∨ c = '\x0c'

/-- Python str.strip() with the default whitespace cut set. -/
def pyStripWs (s : String) : String :=
  ⟨((s.data.dropWhile isPySpace).reverse.dropWhile isPySpace).reverse⟩

/-- Python str.strip(cutset): remove leading and trailing characters drawn from
the cut set. -/
def pyStrip (s : String) (cutset : String) : String :=
  ⟨((s.data.dropWhile (cutset.data.contains ·)).reverse.dropWhile
      (cutset.data.contains ·)).reverse⟩

/-- Python str.split(sep) for a one-character separator (every separator used
by the embedded sources is one character): empty parts are kept. -/
def pySplitChar (c : Char) : List Char → List (List Char)
  | [] => [[]]
  | x :: rest =>
    match pySplitChar c rest with
    | [] => [[]]
    | g :: gs => if x = c then [] :: g :: gs else (x :: g) :: gs

/-- Python s.split(sep) on strings, one-character separator. -/
def pySplit (s : String) (c : Char) : List String :=
  (pySplitChar c s.data).map (fun l => ⟨l⟩)

/-- Whether the first list is a prefix of the second. -/
def isPrefixOfList : List Char → List Char → Bool
  | [], _ => true
  | _ :: _, [] => false
  | a :: as, b :: bs => a = b ∧ isPrefixOfList as bs

/-- Python s.startswith(pre). -/
def pyStartsWith (s pre : String) : Bool :=
  isPrefixOfList pre.data s.data

/-- Python str.replace scanning left to right without overlap, with explicit
fuel; the pattern is non-empty at every call site, so fuel equal to the input
length suffices (each step consumes at least one character). -/
def pyReplaceGo (pat rep : List Char) : Nat → List Char → List Char
  | 0, cs => cs
  | _ + 1, [] => []
  | fuel + 1, c :: rest =>
    if isPrefixOfList pat (c :: rest) then
      rep ++ pyReplaceGo pat rep fuel ((c :: rest).drop pat.length)
    else c :: pyReplaceGo pat rep fuel rest

/-- Python s.replace(pat, rep); an empty pattern (never passed by the
embedded sources) leaves the string unchanged. -/
def pyReplace (s pat rep : String) : String :=
  if pat.data.isEmpty then s
  else ⟨pyReplaceGo pat.data rep.data s.data.length s.data⟩

/-! ## Insertion-ordered association lists (Python dict) -/

/-- First value bound to a key (Python dict lookup). -/
def alookup {α : Type} (m : List (String × α)) (k : String) : Option α :=
  match m.find? (fun p => p.1 = k) with
  | some p => some p.2
  | none => none

/-- Python dict assignment: replace in place when the key exists, append
otherwise (insertion order preserved). -/
def dinsert {α : Type} (m : List (String × α)) (k : String) (v : α) :
    List (String × α) :=
  if m.any (fun p => p.1 = k) then
    m.map (fun p => if p.1 = k then (k, v) else p)
  else m ++ [(k, v)]

/-- In-place mutation of the entry at a key (Python attribute assignment on a
dict member; a missing key would raise KeyError in Python and is a no-op here). -/
def dupdate {α : Type} (m : List (String × α)) (k : String) (f : α → α) :
    List (String × α) :=
  m.map (fun p => if p.1 = k then (p.1, f p.2) else p)

/-! ## Word and letter counting (pywriter/model/scene.py)

The three module-level regular expressions of scene.py are fixed patterns;
they are embedded as direct scanners with Python re semantics (leftmost
scan, alternatives tried left to right, lazy repetition, dot excluding
the newline, MULTILINE caret). -/

/-- Lazy scan for the closing character of a bracketed span: at least one
non-newline character already consumed by the caller, stop at the first
closing character.  Returns the suffix after the match. -/
def scanCloseAux (close : Char) : List Char → Option (List Char)
  | [] => none
  | c :: rest =>
    if c = close then some rest
    else if c = '\n' then none
    else scanCloseAux close rest

/-- Match the regex fragment a left bracket, one or more lazy dots, a right
bracket: the input is the text after the opening bracket. -/
def bracketSpan : List Char → Option (List Char)
  | [] => none
  | c :: rest => if c = '\n' then none else scanCloseAux ']' rest

/-- Lazy scan for the star-slash closer of an inline comment. -/
def scanStarSlash : List Char → Option (List Char)
  | '*' :: '/' :: rest => some rest
  | c :: rest => if c = '\n' then none else scanStarSlash rest
  | [] => none

/-- Match the regex fragment slash-star, one or more lazy dots, star-slash:
the input is the text after the opening slash-star pair. -/
def commentSpan : List Char → Option (List Char)
  | [] => none
  | c :: rest => if c = '\n' then none else scanStarSlash rest

/-- Substitution pass of ADDITIONAL_WORD_LIMITS (scene.py line 15): the regex
a double hyphen, or an em dash, or an en dash, replaced by a space. -/
def subAdditionalWordLimits : List Char → List Char
  | '-' :: '-' :: rest => ' ' :: subAdditionalWordLimits rest
  | '—' :: rest => ' ' :: subAdditionalWordLimits rest
  | '–' :: rest => ' ' :: subAdditionalWordLimits rest
  | c :: rest => c :: subAdditionalWordLimits rest
  | [] => []

/-- Substitution pass of NO_WORD_LIMITS (scene.py line 18): bracketed markup,
inline comments, single hyphens, and a quote mark at line start (MULTILINE),
replaced by the empty string.  The flag tracks whether the current position is
a line start in the original text.  Every step consumes at least one
character, so fuel equal to the input length suffices. -/
def subNoWordLimits : Nat → List Char → Bool → List Char
  | 0, cs, _ => cs
  | _ + 1, [], _ => []
  | fuel + 1, '[' :: rest, _ =>
    (match bracketSpan rest with
     | some rest2 => subNoWordLimits fuel rest2 false
     | none => '[' :: subNoWordLimits fuel rest false)
  | fuel + 1, '/' :: '*' :: rest, _ =>
    (match commentSpan rest with
     | some rest2 => subNoWordLimits fuel rest2 false
     | none => '/' :: subNoWordLimits fuel ('*' :: rest) false)
  | fuel + 1, '-' :: rest, _ => subNoWordLimits fuel rest false
  | fuel + 1, '>' :: rest, lineStart =>
    if lineStart then subNoWordLimits fuel rest false
    else '>' :: subNoWordLimits fuel rest false
  | fuel + 1, c :: rest, _ => c :: subNoWordLimits fuel rest (c = '\n')

/-- Substitution pass of NON_LETTERS (scene.py line 22): bracketed markup,
inline comments, and line feeds, replaced by the empty string; fuel as in
subNoWordLimits. -/
def subNonLetters : Nat → List Char → List Char
  | 0, cs => cs
  | _ + 1, [] => []
  | fuel + 1, '[' :: rest =>
    (match bracketSpan rest with
     | some rest2 => subNonLetters fuel rest2
     | none => '[' :: subNonLetters fuel rest)
  | fuel + 1, '/' :: '*' :: rest =>
    (match commentSpan rest with
     | some rest2 => subNonLetters fuel rest2
     | none => '/' :: subNonLetters fuel ('*' :: rest))
  | fuel + 1, '\n' :: rest => subNonLetters fuel rest
  | fuel + 1, '\r' :: rest => subNonLetters fuel rest
  | fuel + 1, c :: rest => c :: subNonLetters fuel rest

/-- Number of maximal non-whitespace runs: the length of Python text.split(). -/
def countRuns : List Char → Bool → Nat
  | [], _ => 0
  | c :: rest, inWord =>
    if isPySpace c then countRuns rest false
    else (if inWord then 0 else 1) + countRuns rest true

/-- Word count assigned by the Scene.sceneContent setter (scene.py 215-222). -/
def wordCountOf (text : String) : Nat :=
  let dashed := subAdditionalWordLimits text.data
  countRuns (subNoWordLimits dashed.length dashed true) false

/-- Letter count assigned by the Scene.sceneContent setter (scene.py 223-224). -/
def letterCountOf (text : String) : Nat :=
  (subNonLetters text.data.length text.data).length

/-! ## Domain records (pywriter/model) -/

/-- Scene (pywriter/model/scene.py).  Field defaults are the constructor
values.  The hour and minute attributes are not assigned in the Python
constructor; they are created dynamically by the reader and the merge engine
(accessing them on a scene where they were never assigned raises
AttributeError in Python); here the never-assigned state is none. -/
structure Scene where
  title : Option String := none
  desc : Option String := none
  kwVar : List (String × Option String) := []
  sceneContent : Option String := none
  wordCount : Nat := 0
  letterCount : Nat := 0
  scType : Option Nat := none
  doNotExport : Option Bool := none
  status : Option Nat := none
  notes : Option String := none
  tags : Option (List String) := none
  field1 : Option String := none
  field2 : Option String := none
  field3 : Option String := none
  field4 : Option String := none
  appendToPrev : Option Bool := none
  isReactionScene : Option Bool := none
  isSubPlot : Option Bool := none
  goal : Option String := none
  conflict : Option String := none
  outcome : Option String := none
  characters : Option (List String) := none
  locations : Option (List String) := none
  items : Option (List String) := none
  date : Option String := none
  time : Option String := none
  day : Option String := none
  hour : Option String := none
  minute : Option String := none
  lastsDays : Option String := none
  lastsHours : Option String := none
  lastsMinutes : Option String := none
  image : Option String := none
  scnArcs : Option String := none
  scnStyle : Option String := none
  deriving Repr, DecidableEq

/-- The Scene.sceneContent property setter (scene.py 215-224): store the text
and recompute the derived word and letter counts from it. -/
def set_sceneContent (sc : Scene) (text : String) : Scene :=
  { sc with
    sceneContent := some text
    wordCount := wordCountOf text
    letterCount := letterCountOf text }

/-- Chapter (pywriter/model/chapter.py). -/
structure Chapter where
  title : Option String := none
  desc : Option String := none
  kwVar : List (String × Option String) := []
  chLevel : Option Nat := none
  chType : Option Nat := none
  suppressChapterTitle : Option Bool := none
  isTrash : Option Bool := none
  suppressChapterBreak : Option Bool := none
  srtScenes : List String := []
  deriving Repr, DecidableEq

/-- WorldElement (pywriter/model/world_element.py over basic_element.py):
a location or an item. -/
structure WorldElement where
  title : Option String := none
  desc : Option String := none
  kwVar : List (String × Option String) := []
  image : Option String := none
  tags : Option (List String) := none
  aka : Option String := none
  deriving Repr, DecidableEq

/-- The chapter/scene collections of a Novel (pywriter/model/novel.py) that
the splitter and the post-read normalization operate on. -/
structure NovelM where
  scenes : List (String × Scene) := []
  chapters : List (String × Chapter) := []
  srtChapters : List String := []
  deriving Repr, DecidableEq

/-! ## Type codec tables (yw7_file.py)

Decoding is the literal if-chain of read_scenes (lines 332-353) and
read_chapters (lines 483-517); encoding is the literal tuple table of
build_scene_subtree (lines 1052-1057) and build_chapter_subtree (lines
1306-1311).  A signal is Option (Option String): the outer layer is the
presence of the XML element, the inner layer its text. -/

/-- Scene-type decoding (read_scenes): the Field_SceneType custom field wins
over the bare Unused flag; absence of both signals decodes to Normal (0). -/
def decode_scType (unusedPresent : Bool) (fieldSceneType : Option (Option String)) :
    Nat :=
  let scType :=
    match fieldSceneType with
    | some t => if t = some "1" then 1 else if t = some "2" then 2 else 0
    | none => 0
  if unusedPresent ∧ scType = 0 then 3 else scType

/-- Scene-type encoding (build_scene_subtree): the scTypeEncoding table, row
indexed by scType; the Bool is the presence of the Unused flag, the option the
Field_SceneType text (absent for Normal).  Python indexes the 4-tuple, so
values outside 0..3 would raise IndexError; they fall to the Normal row here. -/
def encode_scType : Nat → Bool × Option String
  | 0 => (false, none)
  | 1 => (true, some "1")
  | 2 => (true, some "2")
  | 3 => (true, some "0")
  | _ => (false, none)

/-- Chapter-type decoding (read_chapters): a modern ChapterType element wins
over the legacy Type element, which wins over the bare Unused flag; with
neither element present the type is Normal even when Unused is present. -/
def decode_chType (unusedPresent : Bool)
    (yType yChapterType : Option (Option String)) : Nat :=
  match yChapterType with
  | some ct =>
    if ct = some "2" then 2
    else if ct = some "1" then 1
    else if unusedPresent then 3 else 0
  | none =>
    match yType with
    | some t => if t = some "1" then 1 else if unusedPresent then 3 else 0
    | none => 0

/-- Chapter-type encoding (build_chapter_subtree): the chTypeEncoding table;
the Bool is the Unused flag presence, the strings the Type and ChapterType
texts (both elements are always written). -/
def encode_chType : Nat → Bool × String × String
  | 0 => (false, "0", "0")
  | 1 => (true, "1", "1")
  | 2 => (true, "1", "2")
  | 3 => (true, "1", "0")
  | _ => (false, "0", "0")

/-! ## XML element trees (xml.etree.ElementTree as used by yw7_file.py) -/

/-- An XML element: tag, text content, child elements (attributes are not used
by the reader sections embedded here). -/
inductive Elem where
  | mk (tag : String) (text : Option String) (children : List Elem)
  deriving Repr

def Elem.tag : Elem → String
  | .mk t _ _ => t

def Elem.text : Elem → Option String
  | .mk _ tx _ => tx

def Elem.children : Elem → List Elem
  | .mk _ _ cs => cs

/-- ElementTree find: the first direct child with the given tag. -/
def Elem.findChild (e : Elem) (t : String) : Option Elem :=
  e.children.find? (fun c => c.tag = t)

/-- ElementTree findall: all direct children with the given tag. -/
def Elem.findAll (e : Elem) (t : String) : List Elem :=
  e.children.filter (fun c => c.tag = t)

mutual
/-- ElementTree iter: every element of the subtree with the given tag, in
document (preorder) order, the element itself included. -/
def Elem.iterAll (t : String) : Elem → List Elem
  | .mk tag tx cs =>
    (if tag = t then [Elem.mk tag tx cs] else []) ++ iterList t cs

def iterList (t : String) : List Elem → List Elem
  | [] => []
  | e :: es => Elem.iterAll t e ++ iterList t es
end

/-- Text of the first direct child with the given tag, when that child exists. -/
def Elem.childText (e : Elem) (t : String) : Option (Option String) :=
  (e.findChild t).map Elem.text

/-- Presence test, mirroring the Python pattern find(tag) is not None. -/
def Elem.hasChild (e : Elem) (t : String) : Bool :=
  (e.findChild t).isSome

/-! ## Global string helpers (pywriter/pywriter_globals.py) -/

/-- string_to_list with the default divider: split on semicolons, strip each
part, drop empty parts and duplicates, keep first-seen order. -/
def string_to_list (text : String) : List String :=
  (pySplit text ';').foldl
    (fun acc e =>
      let e := pyStripWs e
      if e ≠ "" ∧ e ∉ acc then acc ++ [e] else acc)
    []

/-- list_to_string with the default divider. -/
def list_to_string (elements : List String) : String :=
  String.intercalate ";" elements

/-- Yw7File._strip_spaces (yw7_file.py 1860-1871). -/
def strip_spaces (lines : List String) : List String :=
  lines.map pyStripWs

/-! ## XML reader, scenes and chapters sections (Yw7File.read)

The claims touch the scene and chapter state only.  The project, location,
item, character, project-variable and project-note sections populate disjoint
fields; of them only the id lists that read_scenes consults for cross
references are embedded.  The custom keyword variable tuples _SCN_KWVAR,
_CHP_KWVAR, _LOC_KWVAR, _ITM_KWVAR of Yw7File are empty, so the corresponding
loops do nothing and are omitted. -/

/-- Reading of one SCENE element, part 1 of 4 (read_scenes, yw7_file.py
302-390): title, description, content, scene type, export flag, status,
notes, tags and rating fields, in source order.  The custom keyword loops
have no effect because _SCN_KWVAR is empty for Yw7File. -/
def readSceneA (scn : Elem) : Scene :=
  let sc : Scene := {}
  let sc := match scn.childText "Title" with
    | some t => { sc with title := t }
    | none => sc
  let sc := match scn.childText "Desc" with
    | some t => { sc with desc := t }
    | none => sc
  let sc := match scn.childText "SceneContent" with
    | some (some content) => set_sceneContent sc content
    | _ => sc
  let scType0 : Nat := (scn.findAll "Fields").foldl
    (fun st scFields =>
      match scFields.childText "Field_SceneType" with
      | some t => if t = some "1" then 1 else if t = some "2" then 2 else st
      | none => st) 0
  let scType1 : Nat := if scn.hasChild "Unused" && scType0 == 0 then 3 else scType0
  let sc := { sc with scType := some scType1 }
  let dne :=
    if !(scn.hasChild "ExportCondSpecific") then some false
    else if scn.hasChild "ExportWhenRTF" then some false
    else some true
  let sc := { sc with doNotExport := dne }
  let sc := match scn.childText "Status" with
    | some (some t) => { sc with status := some (pyInt t) }
    | _ => sc
  let sc := match scn.childText "Notes" with
    | some t => { sc with notes := t }
    | none => sc
  let sc := match scn.childText "Tags" with
    | some (some t) => { sc with tags := some (strip_spaces (string_to_list t)) }
    | _ => sc
  let sc := match scn.childText "Field1" with
    | some t => { sc with field1 := t }
    | none => sc
  let sc := match scn.childText "Field2" with
    | some t => { sc with field2 := t }
    | none => sc
  let sc := match scn.childText "Field3" with
    | some t => { sc with field3 := t }
    | none => sc
  let sc := match scn.childText "Field4" with
    | some t => { sc with field4 := t }
    | none => sc
  sc

/-- Reading of one SCENE element, part 2 of 4 (yw7_file.py 386-415): the
append flag and the start and duration times.  A SpecificDateTime element
whose text is None would raise AttributeError in Python. -/
def readSceneB (scn : Elem) (sc : Scene) : Scene :=
  let sc := { sc with appendToPrev := some (scn.hasChild "AppendToPrev") }
  let sc :=
    match scn.childText "SpecificDateTime" with
    | some (some t) =>
      (pySplit t ' ').foldl
        (fun s dt =>
          if dt.data.contains '-' then { s with date := some dt }
          else if dt.data.contains ':' then { s with time := some dt }
          else s) sc
    | some none => sc
    | none =>
      let s := match scn.childText "Day" with
        | some d => { sc with day := d }
        | none => sc
      let s := match scn.childText "Hour" with
        | some d => { s with hour := d }
        | none => s
      let s := match scn.childText "Minute" with
        | some d => { s with minute := d }
        | none => s
      s
  let sc := match scn.childText "LastsDays" with
    | some t => { sc with lastsDays := t }
    | none => sc
  let sc := match scn.childText "LastsHours" with
    | some t => { sc with lastsHours := t }
    | none => sc
  let sc := match scn.childText "LastsMinutes" with
    | some t => { sc with lastsMinutes := t }
    | none => sc
  sc

/-- Reading of one SCENE element, part 3 of 4 (yw7_file.py 417-437): plot
flags, goal, conflict, outcome and image. -/
def readSceneC (scn : Elem) (sc : Scene) : Scene :=
  let sc := { sc with isReactionScene := some (scn.hasChild "ReactionScene") }
  let sc := { sc with isSubPlot := some (scn.hasChild "SubPlot") }
  let sc := match scn.childText "Goal" with
    | some t => { sc with goal := t }
    | none => sc
  let sc := match scn.childText "Conflict" with
    | some t => { sc with conflict := t }
    | none => sc
  let sc := match scn.childText "Outcome" with
    | some t => { sc with outcome := t }
    | none => sc
  let sc := match scn.childText "ImageFile" with
    | some t => { sc with image := t }
    | none => sc
  sc

/-- Reading of one SCENE element, part 4 of 4 (yw7_file.py 439-461): the
character, location and item cross references, filtered against the id lists
of the already-read sections. -/
def readSceneD (scn : Elem)
    (srtCharacters srtLocations srtItems : List String) (sc : Scene) : Scene :=
  let sc := match scn.findChild "Characters" with
    | some el =>
      (Elem.iterAll "CharID" el).foldl
        (fun s c =>
          match c.text with
          | some crId =>
            if crId ∈ srtCharacters then
              { s with characters := some ((s.characters.getD []) ++ [crId]) }
            else s
          | none => s) sc
    | none => sc
  let sc := match scn.findChild "Locations" with
    | some el =>
      (Elem.iterAll "LocID" el).foldl
        (fun s c =>
          match c.text with
          | some lcId =>
            if lcId ∈ srtLocations then
              { s with locations := some ((s.locations.getD []) ++ [lcId]) }
            else s
          | none => s) sc
    | none => sc
  let sc := match scn.findChild "Items" with
    | some el =>
      (Elem.iterAll "ItemID" el).foldl
        (fun s c =>
          match c.text with
          | some itId =>
            if itId ∈ srtItems then
              { s with items := some ((s.items.getD []) ++ [itId]) }
            else s
          | none => s) sc
    | none => sc
  sc

/-- Reading of one SCENE element (read_scenes, yw7_file.py 302-461). -/
def readScene (scn : Elem)
    (srtCharacters srtLocations srtItems : List String) : Scene :=
  readSceneD scn srtCharacters srtLocations srtItems
    (readSceneC scn (readSceneB scn (readSceneA scn)))

/-- read_scenes (yw7_file.py 302-461): iterate all SCENE elements of the tree
and key them by their ID child text.  A SCENE without an ID child would raise
AttributeError in Python; it is skipped here. -/
def readScenes (root : Elem)
    (srtCharacters srtLocations srtItems : List String) : List (String × Scene) :=
  (Elem.iterAll "SCENE" root).foldl
    (fun m scn =>
      match scn.childText "ID" with
      | some (some scId) =>
        dinsert m scId (readScene scn srtCharacters srtLocations srtItems)
      | _ => m) []

/-- Test of the pattern used by read_chapters on its boolean custom fields:
the Fields child with the given name is present with text 1. -/
def chapterFlagSet (chFields : Elem) (name : String) : Bool :=
  match chFields.childText name with
  | some t => t == some "1"
  | none => false

set_option maxHeartbeats 800000 in
/-- Reading of one CHAPTER element (read_chapters, yw7_file.py 463-554). -/
def readChapter (chp : Elem) (scenes : List (String × Scene)) : Chapter :=
  let ch : Chapter := {}
  let ch := match chp.childText "Title" with
    | some t => { ch with title := t }
    | none => ch
  let ch := match chp.childText "Desc" with
    | some t => { ch with desc := t }
    | none => ch
  let ch := { ch with chLevel := some (if chp.hasChild "SectionStart" then 1 else 0) }
  let chTypeVal :=
    decode_chType (chp.hasChild "Unused") (chp.childText "Type") (chp.childText "ChapterType")
  let ch := { ch with chType := some chTypeVal }
  let sctVal :=
    match ch.title with
    | some t => pyStartsWith t "@"
    | none => false
  let ch := { ch with suppressChapterTitle := some sctVal }
  let ch := (chp.findAll "Fields").foldl
    (fun c chFields =>
      let c :=
        if chapterFlagSet chFields "Field_SuppressChapterTitle" then
          { c with suppressChapterTitle := some true }
        else c
      let c := { c with isTrash := some false }
      let c :=
        if chapterFlagSet chFields "Field_IsTrash" then
          { c with isTrash := some true }
        else c
      let c := { c with suppressChapterBreak := some false }
      let c :=
        if chapterFlagSet chFields "Field_SuppressChapterBreak" then
          { c with suppressChapterBreak := some true }
        else c
      c) ch
  let srtSc :=
    match chp.findChild "Scenes" with
    | some el =>
      (el.findAll "ScID").foldl
        (fun l scn =>
          match scn.text with
          | some scId => if (alookup scenes scId).isSome then l ++ [scId] else l
          | none => l) []
    | none => ([] : List String)
  let ch := { ch with srtScenes := srtSc }
  ch

/-- read_chapters (yw7_file.py 463-554): iterate all CHAPTER elements, keying
the chapter map by the ID child text and appending every ID to srtChapters in
document order (duplicates included, as in the source). -/
def readChapters (root : Elem) (scenes : List (String × Scene)) :
    List (String × Chapter) × List String :=
  (Elem.iterAll "CHAPTER" root).foldl
    (fun (acc : List (String × Chapter) × List String) chp =>
      match chp.childText "ID" with
      | some (some chId) =>
        (dinsert acc.1 chId (readChapter chp scenes), acc.2 ++ [chId])
      | _ => acc) ([], [])

/-- One chapter pass of Yw7File.adjust_scene_types (yw7_file.py 1900-1903):
when the chapter's chType is not Normal, every scene in its scene list takes
the chapter type.  A chapter id missing from the map or a scene id missing
from the map would raise KeyError in Python; here such entries are left
untouched. -/
def adjust_step (m : NovelM) (chId : String) : NovelM :=
  match alookup m.chapters chId with
  | some ch =>
    if ch.chType ≠ some 0 then
      let newScenes := ch.srtScenes.foldl
        (fun scs scId =>
          dupdate scs scId (fun sc => { sc with scType := ch.chType }))
        m.scenes
      { m with scenes := newScenes }
    else m
  | none => m

/-- Yw7File.adjust_scene_types (yw7_file.py 1898-1903): the chapter pass over
the chapter order list. -/
def adjust_scene_types (m : NovelM) : NovelM :=
  m.srtChapters.foldl adjust_step m


/-- Entity ids of a section of the tree (the srtLocations, srtItems and
srtCharacters lists built by read_locations, read_items, read_characters;
only these id lists feed back into the scene and chapter state). -/
def readIdList (root : Elem) (entityTag : String) : List String :=
  (Elem.iterAll entityTag root).foldl
    (fun l e =>
      match e.childText "ID" with
      | some (some i) => l ++ [i]
      | _ => l) []

/-- The scene and chapter state produced by the section readers of
Yw7File.read (lines 565-573) in source order, followed by the final
adjust_scene_types normalization pass.  The sections not embedded here
(project, project variables, project notes, and the location, item and
character records beyond their id lists) populate state disjoint from it. -/
def readSections (root : Elem) : NovelM :=
  let srtLocations := readIdList root "LOCATION"
  let srtItems := readIdList root "ITEM"
  let srtCharacters := readIdList root "CHARACTER"
  let scenes := readScenes root srtCharacters srtLocations srtItems
  let chaptersSrt := readChapters root scenes
  adjust_scene_types ⟨scenes, chaptersSrt.1, chaptersSrt.2⟩

/-- Whether every element of the tree with the given tag carries an ID child:
the section readers access element.find('ID').text without a guard
(yw7_file.py 126, 163, 200, 305, 468), so a missing ID raises AttributeError. -/
def elemsHaveIds (root : Elem) (tag : String) : Bool :=
  (Elem.iterAll tag root).all (fun e => e.hasChild "ID")

/-- Yw7File.read after a successful parse (lines 565-574): read_project
dereferences root.find('PROJECT') without a guard (line 78), and the
location, item, character, scene and chapter readers dereference each
element's ID likewise; on those trees an AttributeError escapes read (none
here — read does not complete).  read_projectvars and read_projectnotes
swallow their errors.  Otherwise read completes successfully and the scene
and chapter state is readSections. -/
def readModel (root : Elem) : Option NovelM :=
  if (root.findChild "PROJECT").isSome
      ∧ elemsHaveIds root "LOCATION" ∧ elemsHaveIds root "ITEM"
      ∧ elemsHaveIds root "CHARACTER" ∧ elemsHaveIds root "SCENE"
      ∧ elemsHaveIds root "CHAPTER" then
    some (readSections root)
  else none

/-! ## The Splitter (pywriter/model/splitter.py)

Splitter.split_scenes walks every chapter and scene, scanning scene content
line by line for the marker characters, mutating the novel in place and
rebuilding the chapter list.  The mutable loop state of the source is threaded
through explicit records: SplitSt carries the novel-level state, ChapSt the
per-chapter locals, LineSt the per-content-line locals. -/

/-- Novel-level state of Splitter.split_scenes: the mutated collections, the
new chapter order under construction, the running id maxima and the
structure-changed flag. -/
structure SplitSt where
  scenes : List (String × Scene)
  chapters : List (String × Chapter)
  srtChaptersNew : List String
  chIdMax : Nat
  scIdMax : Nat
  scenesSplit : Bool
  deriving Repr

/-- Per-chapter loop locals of split_scenes: the current target chapter id and
its scene list under construction. -/
structure ChapSt where
  st : SplitSt
  chapterId : String
  srtScenes : List String
  deriving Repr

/-- Per-line loop locals of split_scenes. -/
structure LineSt where
  st : SplitSt
  chapterId : String
  srtScenes : List String
  sceneId : String
  newLines : List String
  inScene : Bool
  sceneSplitCount : Nat
  deriving Repr

/-- The warning-token marking of a parent field in create_scene (splitter.py
86-93): a truthy field not already carrying the token gets it prepended. -/
def warnMarkOpt : Option String → Option String
  | some s => if s ≠ "" ∧ !(pyStartsWith s "(!)") then some ("(!)" ++ s) else some s
  | none => none

/-- create_chapter (splitter.py 44-58): a fresh Normal chapter with the given
title, description and level, stored under the given id. -/
def split_create_chapter (chapters : List (String × Chapter))
    (chapterId title desc : String) (level : Nat) : List (String × Chapter) :=
  dinsert chapters chapterId
    { title := some title, desc := some desc, chLevel := some level, chType := some 0 }

/-- create_scene (splitter.py 60-108): derive the new scene title, mark the
parent's desc, goal, conflict and outcome with the warning token, cap the
parent's status at Draft, copy status, type, and the date, time and duration
fields from the (mutated) parent, and store the new scene.  The title branch
without a usable parent title emits the malformed f-string of the source
verbatim.  A parent whose status attribute is None would raise TypeError in
Python at the status comparison; here it stays None. -/
def split_create_scene (scenes : List (String × Scene))
    (sceneId scId : String) (splitCount : Nat) (title desc : String) :
    List (String × Scene) :=
  match alookup scenes scId with
  | none => scenes
  | some parent =>
    let newTitle :=
      if title ≠ "" then title
      else if truthyStr parent.title then
        let pt := parent.title.getD ""
        let t := if pt.length > 20 then pt.take 20 ++ "..." else pt
        t ++ " Split: " ++ natToStr splitCount
      else "_(\"New Scene\") Split: " ++ natToStr splitCount
    let newDesc := if desc ≠ "" then some desc else none
    let parent := { parent with
      desc := warnMarkOpt parent.desc,
      goal := warnMarkOpt parent.goal,
      conflict := warnMarkOpt parent.conflict,
      outcome := warnMarkOpt parent.outcome }
    let parent := { parent with
      status := parent.status.map (fun st => if st > 2 then 2 else st) }
    let newScene : Scene :=
      { title := some newTitle, desc := newDesc,
        status := parent.status, scType := parent.scType,
        date := parent.date, time := parent.time, day := parent.day,
        hour := parent.hour, minute := parent.minute,
        lastsDays := parent.lastsDays, lastsHours := parent.lastsHours,
        lastsMinutes := parent.lastsMinutes }
    dinsert (dupdate scenes scId (fun _ => parent)) sceneId newScene

/-- Processing of one content line of the scene with id scId (splitter.py
139-199): a scene marker splits the scene, a chapter or part marker closes the
chapter, an unmarked line while no scene is open synthesizes a scene, any
other line accumulates. -/
def splitLine (scId : String) (ls : LineSt) (line : String) : LineSt :=
  let heading := pySplit (pyStrip line "# ") '|'
  let title := heading.headD ""
  let desc := heading.getD 1 ""
  if pyStartsWith line "###" then
    let scenes1 := dupdate ls.st.scenes ls.sceneId
      (fun sc => set_sceneContent sc (String.intercalate "\n" ls.newLines))
    let cnt := ls.sceneSplitCount + 1
    let mx := ls.st.scIdMax + 1
    let sid := natToStr mx
    let scenes2 := split_create_scene scenes1 sid scId cnt title desc
    { ls with
      st := { ls.st with scenes := scenes2, scIdMax := mx, scenesSplit := true },
      sceneId := sid,
      newLines := [],
      inScene := true,
      sceneSplitCount := cnt,
      srtScenes := ls.srtScenes ++ [sid] }
  else if pyStartsWith line "##" then
    let flushed :=
      if ls.inScene then
        (dupdate ls.st.scenes ls.sceneId
          (fun sc => set_sceneContent sc (String.intercalate "\n" ls.newLines)),
         ([] : List String), 0)
      else (ls.st.scenes, ls.newLines, ls.sceneSplitCount)
    let chapters1 := dupdate ls.st.chapters ls.chapterId
      (fun c => { c with srtScenes := ls.srtScenes })
    let mx := ls.st.chIdMax + 1
    let cid := natToStr mx
    let title1 := if title = "" then "New Chapter" else title
    let chapters2 := split_create_chapter chapters1 cid title1 desc 0
    { st := { scenes := flushed.1, chapters := chapters2,
              srtChaptersNew := ls.st.srtChaptersNew ++ [cid],
              chIdMax := mx, scIdMax := ls.st.scIdMax, scenesSplit := true },
      chapterId := cid,
      srtScenes := [],
      sceneId := ls.sceneId,
      newLines := flushed.2.1,
      inScene := false,
      sceneSplitCount := flushed.2.2 }
  else if pyStartsWith line "#" then
    let flushed :=
      if ls.inScene then
        (dupdate ls.st.scenes ls.sceneId
          (fun sc => set_sceneContent sc (String.intercalate "\n" ls.newLines)),
         ([] : List String), 0)
      else (ls.st.scenes, ls.newLines, ls.sceneSplitCount)
    let chapters1 := dupdate ls.st.chapters ls.chapterId
      (fun c => { c with srtScenes := ls.srtScenes })
    let mx := ls.st.chIdMax + 1
    let cid := natToStr mx
    let title1 := if title = "" then "New Part" else title
    let chapters2 := split_create_chapter chapters1 cid title1 desc 1
    { st := { scenes := flushed.1, chapters := chapters2,
              srtChaptersNew := ls.st.srtChaptersNew ++ [cid],
              chIdMax := mx, scIdMax := ls.st.scIdMax,
              scenesSplit := ls.st.scenesSplit },
      chapterId := cid,
      srtScenes := [],
      sceneId := ls.sceneId,
      newLines := flushed.2.1,
      inScene := false,
      sceneSplitCount := flushed.2.2 }
  else if !ls.inScene then
    let newLines1 := ls.newLines ++ [line]
    let cnt := ls.sceneSplitCount + 1
    let mx := ls.st.scIdMax + 1
    let sid := natToStr mx
    let scenes2 := split_create_scene ls.st.scenes sid scId cnt "" ""
    { ls with
      st := { ls.st with scenes := scenes2, scIdMax := mx, scenesSplit := true },
      sceneId := sid,
      newLines := newLines1,
      inScene := true,
      sceneSplitCount := cnt,
      srtScenes := ls.srtScenes ++ [sid] }
  else { ls with newLines := ls.newLines ++ [line] }

/-- Processing of one scene of a chapter (splitter.py 127-200): append the
scene to the order list, skip scenes without content, otherwise run the line
loop over the content and store the remaining lines into the scene that is
current when the loop ends. -/
def splitScene (cs : ChapSt) (scId : String) : ChapSt :=
  let cs := { cs with srtScenes := cs.srtScenes ++ [scId] }
  match alookup cs.st.scenes scId with
  | none => cs
  | some sc =>
    if ¬ truthyStr sc.sceneContent then cs
    else
      let lines := pySplit (sc.sceneContent.getD "") '\n'
      let ls0 : LineSt :=
        { st := cs.st, chapterId := cs.chapterId,
          srtScenes := cs.srtScenes, sceneId := scId,
          newLines := [], inScene := true, sceneSplitCount := 0 }
      let ls := lines.foldl (splitLine scId) ls0
      let scenes1 := dupdate ls.st.scenes ls.sceneId
        (fun s => set_sceneContent s (String.intercalate "\n" ls.newLines))
      { st := { ls.st with scenes := scenes1 },
        chapterId := ls.chapterId, srtScenes := ls.srtScenes }

/-- Processing of one chapter (splitter.py 123-201): iterate the snapshot of
the chapter's scene list, then store the open scene list into the chapter
that is current when the scene loop ends. -/
def splitChapter (st : SplitSt) (chId : String) : SplitSt :=
  let st := { st with srtChaptersNew := st.srtChaptersNew ++ [chId] }
  match alookup st.chapters chId with
  | none => st
  | some ch =>
    let cs := ch.srtScenes.foldl splitScene { st := st, chapterId := chId, srtScenes := [] }
    let chapters1 := dupdate cs.st.chapters cs.chapterId
      (fun c => { c with srtScenes := cs.srtScenes })
    { cs.st with chapters := chapters1 }

/-- Splitter.split_scenes (splitter.py 31-203): compute the id maxima, walk
all chapters, and return the updated novel together with the
structure-changed flag. -/
def split_scenes (novel : NovelM) : NovelM × Bool :=
  let chIdMax := novel.srtChapters.foldl (fun m chId => max m (pyInt chId)) 0
  let scIdMax := novel.scenes.foldl (fun m p => max m (pyInt p.1)) 0
  let st0 : SplitSt :=
    { scenes := novel.scenes, chapters := novel.chapters,
      srtChaptersNew := [], chIdMax := chIdMax, scIdMax := scIdMax,
      scenesSplit := false }
  let st := novel.srtChapters.foldl splitChapter st0
  ({ scenes := st.scenes, chapters := st.chapters, srtChapters := st.srtChaptersNew },
   st.scenesSplit)

/-! ## Id generation (pywriter/model/id_generator.py) -/

/-- The while loop of create_id, with explicit fuel; one more unit of fuel
than there are elements always suffices, since every consumed unit matches a
distinct id already present. -/
def create_idGo (elements : List String) : Nat → Nat → String
  | i, 0 => natToStr i
  | i, fuel + 1 =>
    if natToStr i ∈ elements then create_idGo elements (i + 1) fuel
    else natToStr i

/-- create_id (id_generator.py 9-18): the smallest positive integer whose
decimal string is not among the existing ids. -/
def create_id (elements : List String) : String :=
  create_idGo elements 1 (elements.length + 1)

/-! ## Merge field rules (Yw7File.merge, yw7_file.py 576-981)

The per-entity field merges are embedded for one entity id present in the
source order: the location rule builds a fresh record filled from source with
fallback to the pre-merge target entry, the scene rule updates the existing
target record field by field, and the project-attribute rule updates the
project-level scalars.  The custom keyword loops are no-ops for Yw7File
except at project level. -/

/-- Merge of one location entry (yw7_file.py 604-640), source and pre-merge
target both given (a target entry missing in Python is first replaced by a
fresh WorldElement, so this covers new ids as well).  The else branch of the
image guard assigns desc, exactly as in the source (lines 620-623). -/
def merge_location_entry (src tgtPre : WorldElement) : WorldElement :=
  let e : WorldElement := {}
  let e := { e with title := if truthyStr src.title then src.title else tgtPre.title }
  let e :=
    if src.image.isSome then { e with image := src.image }
    else { e with desc := tgtPre.desc }
  let e := { e with desc := if src.desc.isSome then src.desc else tgtPre.desc }
  let e := { e with aka := if src.aka.isSome then src.aka else tgtPre.aka }
  let e := { e with tags := if src.tags.isSome then src.tags else tgtPre.tags }
  e

/-- Merge of one scene entry (yw7_file.py 770-876), updating the target scene
in place; the cross-reference lists are filtered against the key lists of the
already-merged character, location and item maps.  Part 1: scalar fields.
Every if-statement of the source guards on the source record alone and writes
one distinct target attribute, so the statement sequence is rendered as one
simultaneous record update, one field per source if-statement; assigning
sceneContent goes through the property setter, which also recomputes the two
counts (scene.py 215-224). -/
def merge_scene_scalars (src : Scene) (tgt : Scene) : Scene :=
  { tgt with
    title := if truthyStr src.title then src.title else tgt.title,
    desc := if src.desc.isSome then src.desc else tgt.desc,
    sceneContent := if src.sceneContent.isSome then src.sceneContent
      else tgt.sceneContent,
    wordCount := match src.sceneContent with
      | some content => wordCountOf content
      | none => tgt.wordCount,
    letterCount := match src.sceneContent with
      | some content => letterCountOf content
      | none => tgt.letterCount,
    scType := if src.scType.isSome then src.scType else tgt.scType,
    status := if src.status.isSome then src.status else tgt.status,
    notes := if src.notes.isSome then src.notes else tgt.notes,
    tags := if src.tags.isSome then src.tags else tgt.tags,
    field1 := if src.field1.isSome then src.field1 else tgt.field1,
    field2 := if src.field2.isSome then src.field2 else tgt.field2,
    field3 := if src.field3.isSome then src.field3 else tgt.field3,
    field4 := if src.field4.isSome then src.field4 else tgt.field4,
    appendToPrev := if src.appendToPrev.isSome then src.appendToPrev
      else tgt.appendToPrev }

/-- Merge of one scene entry, part 2: start time, duration, plot fields and
cross references (yw7_file.py 812-876), rendered as a simultaneous update in
the same way; date and time share the three-way guard of the source's
if/elif chain. -/
def merge_scene_rest (src : Scene) (tgt : Scene)
    (characterIds locationIds itemIds : List String) : Scene :=
  { tgt with
    date :=
      if truthyStr src.date || truthyStr src.time then
        (if src.date.isSome then src.date else tgt.date)
      else if truthyStr src.minute || truthyStr src.hour || truthyStr src.day then
        none
      else tgt.date,
    time :=
      if truthyStr src.date || truthyStr src.time then
        (if src.time.isSome then src.time else tgt.time)
      else if truthyStr src.minute || truthyStr src.hour || truthyStr src.day then
        none
      else tgt.time,
    minute := if src.minute.isSome then src.minute else tgt.minute,
    hour := if src.hour.isSome then src.hour else tgt.hour,
    day := if src.day.isSome then src.day else tgt.day,
    lastsMinutes := if src.lastsMinutes.isSome then src.lastsMinutes
      else tgt.lastsMinutes,
    lastsHours := if src.lastsHours.isSome then src.lastsHours
      else tgt.lastsHours,
    lastsDays := if src.lastsDays.isSome then src.lastsDays else tgt.lastsDays,
    isReactionScene := if src.isReactionScene.isSome then src.isReactionScene
      else tgt.isReactionScene,
    isSubPlot := if src.isSubPlot.isSome then src.isSubPlot else tgt.isSubPlot,
    goal := if src.goal.isSome then src.goal else tgt.goal,
    conflict := if src.conflict.isSome then src.conflict else tgt.conflict,
    outcome := if src.outcome.isSome then src.outcome else tgt.outcome,
    characters := match src.characters with
      | some crIds => some (crIds.filter (· ∈ characterIds))
      | none => tgt.characters,
    locations := match src.locations with
      | some lcIds => some (lcIds.filter (· ∈ locationIds))
      | none => tgt.locations,
    items := match src.items with
      | some itIds => some (itIds.filter (· ∈ itemIds))
      | none => tgt.items }

/-- Merge of one scene entry (yw7_file.py 770-876): both parts in order. -/
def merge_scene_entry (src tgt : Scene)
    (characterIds locationIds itemIds : List String) : Scene :=
  merge_scene_rest src (merge_scene_scalars src tgt) characterIds locationIds itemIds

/-- The project-level scalar attributes of a Novel that Yw7File.merge updates
(yw7_file.py 928-967). -/
structure ProjectFields where
  title : Option String := none
  desc : Option String := none
  authorName : Option String := none
  authorBio : Option String := none
  fieldTitle1 : Option String := none
  fieldTitle2 : Option String := none
  fieldTitle3 : Option String := none
  fieldTitle4 : Option String := none
  languageCode : Option String := none
  countryCode : Option String := none
  languages : Option (List String) := none
  kwVar : List (String × Option String) := []
  deriving Repr, DecidableEq

/-- Merge of the project attributes (yw7_file.py 928-967): adopt each source
value unless it is blank (title) or absent (the others); the custom keyword
loop copies the two project keywords when the source carries them.  As above,
the source's if-statements each write one distinct attribute, rendered as one
simultaneous update; the keyword loop only touches the kwVar map. -/
def merge_project_fields (src tgt : ProjectFields) : ProjectFields :=
  { tgt with
    title := if truthyStr src.title then src.title else tgt.title,
    desc := if src.desc.isSome then src.desc else tgt.desc,
    authorName := if src.authorName.isSome then src.authorName
      else tgt.authorName,
    authorBio := if src.authorBio.isSome then src.authorBio else tgt.authorBio,
    fieldTitle1 := if src.fieldTitle1.isSome then src.fieldTitle1
      else tgt.fieldTitle1,
    fieldTitle2 := if src.fieldTitle2.isSome then src.fieldTitle2
      else tgt.fieldTitle2,
    fieldTitle3 := if src.fieldTitle3.isSome then src.fieldTitle3
      else tgt.fieldTitle3,
    fieldTitle4 := if src.fieldTitle4.isSome then src.fieldTitle4
      else tgt.fieldTitle4,
    languageCode := if src.languageCode.isSome then src.languageCode
      else tgt.languageCode,
    countryCode := if src.countryCode.isSome then src.countryCode
      else tgt.countryCode,
    languages := if src.languages.isSome then src.languages else tgt.languages,
    kwVar := ["Field_LanguageCode", "Field_CountryCode"].foldl
      (fun kv f =>
        match alookup src.kwVar f with
        | some v => dinsert kv f v
        | none => kv) tgt.kwVar }

/-! ## XML post-processing (Yw7File._postprocess_xml_file, yw7_file.py 1826-1858)

The pure text transformation of the pass: prepend the XML header line, wrap
the text-bearing tags in CDATA per line, splice the CDATA markers across the
adjacent line breaks, and unescape entities. -/

/-- The Yw7File._CDATA_TAGS list (yw7_file.py 36-41), in source order. -/
def cdataTags : List String :=
  ["Title", "AuthorName", "Bio", "Desc",
   "FieldTitle1", "FieldTitle2", "FieldTitle3",
   "FieldTitle4", "LaTeXHeaderFile", "Tags",
   "AKA", "ImageFile", "FullName", "Goals",
   "Notes", "RTFFile", "SceneContent",
   "Outcome", "Goal", "Conflict"]

/-- Modelled from the spec: the post-processing pass "unescapes XML predefined
entities" (the Python source calls html.unescape, whose full named-entity
table lives outside this repository); the five predefined XML entities are
handled, in a single left-to-right pass as in the source. -/
def unescapeChars : List Char → List Char
  | '&' :: 'l' :: 't' :: ';' :: rest => '<' :: unescapeChars rest
  | '&' :: 'g' :: 't' :: ';' :: rest => '>' :: unescapeChars rest
  | '&' :: 'a' :: 'm' :: 'p' :: ';' :: rest => '&' :: unescapeChars rest
  | '&' :: 'q' :: 'u' :: 'o' :: 't' :: ';' :: rest => '"' :: unescapeChars rest
  | '&' :: 'a' :: 'p' :: 'o' :: 's' :: ';' :: rest => Char.ofNat 39 :: unescapeChars rest
  | c :: rest => c :: unescapeChars rest
  | [] => []

/-- The text transformation of _postprocess_xml_file (yw7_file.py 1841-1851):
line-wise CDATA insertion for every tag of the CDATA list, the two splice
replacements, and entity unescaping.  The two regex substitutions per tag are
plain substring replacements because tag names contain no metacharacters. -/
def postprocess_xml_text (text : String) : String :=
  let lines := pySplit text '\n'
  let header := "<?xml version=\"1.0\" encoding=\"utf-8\"?>"
  let newlines := [header] ++ lines.map (fun line =>
    cdataTags.foldl
      (fun l tag =>
        pyReplace (pyReplace l ("<" ++ tag ++ ">") ("<" ++ tag ++ "><![CDATA["))
          ("</" ++ tag ++ ">") ("]]></" ++ tag ++ ">"))
      line)
  let text1 := String.intercalate "\n" newlines
  let text2 := pyReplace text1 "[CDATA[ \n" "[CDATA["
  let text3 := pyReplace text2 "\n]]" "]]"
  ⟨unescapeChars text3.data⟩

/-! ## The entry guards of Yw7File.read (yw7_file.py 556-562)

read is parameterized over the outcome of the single ElementTree parse
attempt: the bare except returns the error message string, so no exception
escapes. -/

/-- The lock-check and parse stage of Yw7File.read (yw7_file.py 556-562):
the locked-file message when a lock file exists, the malformed-document
message when the XML parse failed, the parsed root otherwise.  The path is
embedded verbatim into the message (os.path.normpath is the identity on the
already-normalized paths considered here). -/
def yw7_read_parse (locked : Bool) (path : String) (parsed : Option Elem) :
    Except String Elem :=
  if locked then .error ("!" ++ "yWriter seems to be open. Please close first.")
  else
    match parsed with
    | none => .error ("!" ++ "Can not process file: \"" ++ path ++ "\".")
    | some root => .ok root

/-- Modelled from the spec: a read that, before reporting failure, "makes a
fallback parse attempt assuming UTF-16 encoding for files produced by
non-conforming writer tools"; no such fallback exists in yw7_file.py, whose
read has exactly one parse attempt. -/
def yw7_read_parse_withFallback (locked : Bool) (path : String)
    (parsedUtf8 parsedUtf16 : Option Elem) : Except String Elem :=
  if locked then .error ("!" ++ "yWriter seems to be open. Please close first.")
  else
    match parsedUtf8 with
    | some root => .ok root
    | none =>
      match parsedUtf16 with
      | some root => .ok root
      | none => .error ("!" ++ "Can not process file: \"" ++ path ++ "\".")

/-! ## Disk model for the write paths (yw7_file.py 1807-1858,
file_export.py 732-755)

The on-disk state at the target path and at its .bak sibling; the outcomes of
the fallible operating-system calls are injected as parameters, together with
whatever content a failed write attempt left behind at the path. -/

/-- The file at the target path and the file at the .bak sibling path. -/
structure Disk where
  orig : Option String := none
  bak : Option String := none
  deriving Repr, DecidableEq

/-- Yw7File._write_element_tree (yw7_file.py 1807-1824): rename an existing
file at the path to its .bak sibling, write the serialized tree, and on a
write failure restore the backup before returning the error message. -/
def write_element_tree (writeOk : Bool) (serialized partialContent path : String)
    (d : Disk) : String × Disk :=
  let backedUp := d.orig.isSome
  let d1 : Disk := if d.orig.isSome then { orig := none, bak := d.orig } else d
  if writeOk then ("yWriter XML tree written.", { d1 with orig := some serialized })
  else
    let d2 := { d1 with orig := some partialContent }
    if backedUp then
      ("!" ++ "Cannot write file: \"" ++ path ++ "\".",
       { orig := d2.bak, bak := none })
    else ("!" ++ "Cannot write file: \"" ++ path ++ "\".", d2)

/-- Yw7File._postprocess_xml_file (yw7_file.py 1826-1858) as a disk step:
read the file back, transform its text, rewrite the file; a failing rewrite
returns the error message without touching the backup. -/
def postprocess_write (writeOk : Bool) (partialContent path : String)
    (d : Disk) : String × Disk :=
  let text := postprocess_xml_text (d.orig.getD "")
  if writeOk then ("File written: \"" ++ path ++ "\".", { d with orig := some text })
  else ("!" ++ "Cannot write file: \"" ++ path ++ "\".", { d with orig := some partialContent })

/-- Yw7File.write (yw7_file.py 983-1001) after the in-memory tree build: the
lock check, the element-tree write with backup, then the post-processing
rewrite, stopping at the first error message. -/
def yw7_write (locked : Bool) (serialized : String)
    (treeWriteOk : Bool) (treePartial : String)
    (postWriteOk : Bool) (postPartial : String)
    (path : String) (d : Disk) : String × Disk :=
  if locked then ("!" ++ "yWriter seems to be open. Please close first.", d)
  else
    let r1 := write_element_tree treeWriteOk serialized treePartial path d
    if pyStartsWith r1.1 "!" then r1
    else postprocess_write postWriteOk postPartial path r1.2

/-- FileExport.write (file_export.py 732-755): rename an existing file to the
.bak sibling (its own failure reported before anything is written), write the
rendered text, and on failure restore the backup. -/
def file_export_write (text : String) (replaceOk writeOk : Bool)
    (partialContent path : String) (d : Disk) : String × Disk :=
  if d.orig.isSome then
    if !replaceOk then
      ("!" ++ "Cannot overwrite file: \"" ++ path ++ "\".", d)
    else
      let d1 : Disk := { orig := none, bak := d.orig }
      if writeOk then ("File written: \"" ++ path ++ "\".", { d1 with orig := some text })
      else
        ("!" ++ "Cannot write file: \"" ++ path ++ "\".", { orig := d.orig, bak := none })
  else
    if writeOk then ("File written: \"" ++ path ++ "\".", { d with orig := some text })
    else ("!" ++ "Cannot write file: \"" ++ path ++ "\".", { d with orig := some partialContent })

/-! ## Template substitution (string.Template.safe_substitute)

The Python standard Template class with its default delimiter and identifier
pattern, in safe mode: unknown placeholders and invalid delimiter uses are
left verbatim. -/

/-- First character of a Template identifier (the ASCII idpattern). -/
def isIdentStart (c : Char) : Bool :=
  ('a' ≤ c ∧ c ≤ 'z') ∨ ('A' ≤ c ∧ c ≤ 'Z') ∨ c = '_'

/-- Later character of a Template identifier. -/
def isIdentChar (c : Char) : Bool :=
  isIdentStart c ∨ ('0' ≤ c ∧ c ≤ '9')

/-- Parse of a braced placeholder after the dollar-brace pair: an identifier
followed by the closing brace; returns the identifier characters and the
suffix after the brace. -/
def bracedSpan (rest : List Char) : Option (List Char × List Char) :=
  match rest with
  | d :: ds =>
    if isIdentStart d then
      let identChars := d :: ds.takeWhile isIdentChar
      match ds.dropWhile isIdentChar with
      | rb :: rest3 => if rb = Char.ofNat 125 then some (identChars, rest3) else none
      | [] => none
    else none
  | [] => none

/-- safe_substitute over the character list of the template, with fuel (each
step consumes at least one character): dollar-dollar is an escaped delimiter,
dollar-identifier and dollar-braced-identifier are looked up in the mapping
and left verbatim when absent, and an invalid delimiter use emits the dollar
and rescans from the next character. -/
def safeSubstituteAux (mapping : List (String × String)) :
    Nat → List Char → List Char
  | 0, cs => cs
  | _ + 1, [] => []
  | fuel + 1, '$' :: '$' :: rest => '$' :: safeSubstituteAux mapping fuel rest
  | fuel + 1, '$' :: c :: rest =>
    if isIdentStart c then
      let identChars := c :: rest.takeWhile isIdentChar
      let rest2 := rest.dropWhile isIdentChar
      match alookup mapping ⟨identChars⟩ with
      | some v => v.data ++ safeSubstituteAux mapping fuel rest2
      | none => '$' :: (identChars ++ safeSubstituteAux mapping fuel rest2)
    else if c = Char.ofNat 123 then
      match bracedSpan rest with
      | some (identChars, rest3) =>
        (match alookup mapping ⟨identChars⟩ with
         | some v => v.data ++ safeSubstituteAux mapping fuel rest3
         | none =>
           '$' :: Char.ofNat 123 ::
             (identChars ++ Char.ofNat 125 :: safeSubstituteAux mapping fuel rest3))
      | none => '$' :: safeSubstituteAux mapping fuel (c :: rest)
    else '$' :: safeSubstituteAux mapping fuel (c :: rest)
  | fuel + 1, c :: rest => c :: safeSubstituteAux mapping fuel rest

/-- Template(tpl).safe_substitute(mapping). -/
def safe_substitute (tpl : String) (mapping : List (String × String)) : String :=
  ⟨safeSubstituteAux mapping tpl.data.length tpl.data⟩

/-! ## The template export engine (pywriter/file/file_export.py)

FileExport state: the template slots (empty by default, overridden by the
concrete exporter subclasses), the pluggable per-kind filters (the Filter
default, modelled from the spec as a no-op predicate accepting everything:
the filter module itself is not among the sources), and the mapping builders
_get_sceneMapping and _get_chapterMapping, which the source defines as
template methods that subclasses extend or override, here carried as
function-valued slots. -/

structure Exporter where
  scenes : List (String × Scene) := []
  chapters : List (String × Chapter) := []
  srtChapters : List String := []
  sceneFilter : String → Bool := fun _ => true
  chapterFilter : String → Bool := fun _ => true
  sceneMapping : String → Nat → Nat → Nat → List (String × String) := fun _ _ _ _ => []
  chapterMapping : String → Nat → List (String × String) := fun _ _ => []
  fileHeader : String := ""
  partTemplate : String := ""
  chapterTemplate : String := ""
  notesPartTemplate : String := ""
  todoPartTemplate : String := ""
  notesChapterTemplate : String := ""
  todoChapterTemplate : String := ""
  unusedChapterTemplate : String := ""
  notExportedChapterTemplate : String := ""
  sceneTemplate : String := ""
  firstSceneTemplate : String := ""
  appendedSceneTemplate : String := ""
  notesSceneTemplate : String := ""
  todoSceneTemplate : String := ""
  unusedSceneTemplate : String := ""
  notExportedSceneTemplate : String := ""
  sceneDivider : String := ""
  chapterEndTemplate : String := ""
  unusedChapterEndTemplate : String := ""
  notExportedChapterEndTemplate : String := ""
  notesChapterEndTemplate : String := ""
  todoChapterEndTemplate : String := ""

/-- The running state of the scene loop of _get_scenes. -/
structure ScState where
  lines : List String
  sceneNumber : Nat
  wordsTotal : Nat
  lettersTotal : Nat
  firstSceneInChapter : Bool
  deriving Repr, DecidableEq

/-- One iteration of the scene loop of FileExport._get_scenes (file_export.py
493-552) for the scene with id scId inside chapter chId: filter gate,
template selection in source precedence order (a selected tier whose template
is empty, and raw-code scenes, leave the state untouched via continue),
word and letter totals threaded into the mapping, divider and first-scene
handling.  Scene or chapter ids missing from the maps would raise KeyError
in Python; such steps leave the state unchanged here. -/
def get_scenes_step (ex : Exporter) (chId : String) (doNotExport : Bool)
    (st : ScState) (scId : String) : ScState :=
  match alookup ex.scenes scId, alookup ex.chapters chId with
  | some scene, some chapter =>
    if !(ex.sceneFilter scId) then st
    else
      let sceneContent := scene.sceneContent.getD ""
      let selected : Option (String × Nat × Nat × Nat × Nat) :=
        if scene.scType = some 2 then
          if ex.todoSceneTemplate ≠ "" then
            some (ex.todoSceneTemplate, 0, st.sceneNumber, st.wordsTotal, st.lettersTotal)
          else none
        else if scene.scType = some 1 then
          if ex.notesSceneTemplate ≠ "" then
            some (ex.notesSceneTemplate, 0, st.sceneNumber, st.wordsTotal, st.lettersTotal)
          else none
        else if scene.scType = some 3 ∨ chapter.chType = some 3 then
          if ex.unusedSceneTemplate ≠ "" then
            some (ex.unusedSceneTemplate, 0, st.sceneNumber, st.wordsTotal, st.lettersTotal)
          else none
        else if truthyBool scene.doNotExport ∨ doNotExport then
          if ex.notExportedSceneTemplate ≠ "" then
            some (ex.notExportedSceneTemplate, 0, st.sceneNumber, st.wordsTotal, st.lettersTotal)
          else none
        else if pyStartsWith sceneContent "<HTML>" then none
        else if pyStartsWith sceneContent "<TEX>" then none
        else
          let n := st.sceneNumber + 1
          let wt := st.wordsTotal + scene.wordCount
          let lt := st.lettersTotal + scene.letterCount
          let tpl :=
            if !st.firstSceneInChapter ∧ truthyBool scene.appendToPrev ∧
                ex.appendedSceneTemplate ≠ "" then
              ex.appendedSceneTemplate
            else ex.sceneTemplate
          some (tpl, n, n, wt, lt)
      match selected with
      | none => st
      | some (tpl, disp, n, wt, lt) =>
        let lines1 :=
          if !(st.firstSceneInChapter ∨ truthyBool scene.appendToPrev) then
            st.lines ++ [ex.sceneDivider]
          else st.lines
        let tpl2 :=
          if st.firstSceneInChapter ∧ ex.firstSceneTemplate ≠ "" then
            ex.firstSceneTemplate
          else tpl
        { lines := lines1 ++ [safe_substitute tpl2 (ex.sceneMapping scId disp wt lt)],
          sceneNumber := n, wordsTotal := wt, lettersTotal := lt,
          firstSceneInChapter := false }
  | _, _ => st

/-- FileExport._get_scenes (file_export.py 471-552): fold the scene loop over
the chapter's scene order. -/
def get_scenes (ex : Exporter) (chId : String)
    (sceneNumber wordsTotal lettersTotal : Nat) (doNotExport : Bool) :
    List String × Nat × Nat × Nat :=
  let srt := ((alookup ex.chapters chId).map Chapter.srtScenes).getD []
  let st := srt.foldl (get_scenes_step ex chId doNotExport)
    { lines := [], sceneNumber := sceneNumber, wordsTotal := wordsTotal,
      lettersTotal := lettersTotal, firstSceneInChapter := true }
  (st.lines, st.sceneNumber, st.wordsTotal, st.lettersTotal)

/-- The running state of the chapter loop of _get_chapters. -/
structure ChState where
  lines : List String
  chapterNumber : Nat
  sceneNumber : Nat
  wordsTotal : Nat
  lettersTotal : Nat
  deriving Repr, DecidableEq

/-- One iteration of FileExport._get_chapters (file_export.py 554-642) for
the chapter with id chId: filter gate, the all-scenes-suppressed test that
drives the chapter-level doNotExport flag, chapter template selection in
source precedence order, the nested scene pass, and the chapter end template. -/
def get_chapters_step (ex : Exporter) (st : ChState) (chId : String) : ChState :=
  match alookup ex.chapters chId with
  | none => st
  | some chapter =>
    if !(ex.chapterFilter chId) then st
    else
      let sceneCount := chapter.srtScenes.length
      let notExportCount :=
        (chapter.srtScenes.filter
          (fun scId => truthyBool (((alookup ex.scenes scId).map Scene.doNotExport).getD none))).length
      let doNotExport := sceneCount > 0 ∧ notExportCount = sceneCount
      let selected : Option (String × Nat × Nat) :=
        if chapter.chType = some 2 then
          if chapter.chLevel = some 1 then
            if ex.todoPartTemplate ≠ "" then some (ex.todoPartTemplate, 0, st.chapterNumber)
            else none
          else if ex.todoChapterTemplate ≠ "" then
            some (ex.todoChapterTemplate, 0, st.chapterNumber)
          else none
        else if chapter.chType = some 1 then
          if chapter.chLevel = some 1 then
            if ex.notesPartTemplate ≠ "" then some (ex.notesPartTemplate, 0, st.chapterNumber)
            else none
          else if ex.notesChapterTemplate ≠ "" then
            some (ex.notesChapterTemplate, 0, st.chapterNumber)
          else none
        else if chapter.chType = some 3 then
          if ex.unusedChapterTemplate ≠ "" then
            some (ex.unusedChapterTemplate, 0, st.chapterNumber)
          else none
        else if doNotExport then
          if ex.notExportedChapterTemplate ≠ "" then
            some (ex.notExportedChapterTemplate, 0, st.chapterNumber)
          else none
        else if chapter.chLevel = some 1 ∧ ex.partTemplate ≠ "" then
          some (ex.partTemplate, 0, st.chapterNumber)
        else
          some (ex.chapterTemplate, st.chapterNumber + 1, st.chapterNumber + 1)
      let chapterNumber1 := match selected with
        | some (_, _, n) => n
        | none => st.chapterNumber
      let lines1 := match selected with
        | some (tpl, disp, _) =>
          st.lines ++ [safe_substitute tpl (ex.chapterMapping chId disp)]
        | none => st.lines
      let scenesOut := get_scenes ex chId st.sceneNumber st.wordsTotal st.lettersTotal doNotExport
      let lines2 := lines1 ++ scenesOut.1
      let endTpl : Option String :=
        if chapter.chType = some 2 then
          if ex.todoChapterEndTemplate ≠ "" then some ex.todoChapterEndTemplate else none
        else if chapter.chType = some 1 then
          if ex.notesChapterEndTemplate ≠ "" then some ex.notesChapterEndTemplate else none
        else if chapter.chType = some 3 then
          if ex.unusedChapterEndTemplate ≠ "" then some ex.unusedChapterEndTemplate else none
        else if doNotExport then
          if ex.notExportedChapterEndTemplate ≠ "" then some ex.notExportedChapterEndTemplate else none
        else if ex.chapterEndTemplate ≠ "" then some ex.chapterEndTemplate
        else none
      let lines3 := match endTpl with
        | some tpl => lines2 ++ [safe_substitute tpl (ex.chapterMapping chId (match selected with | some (_, disp, _) => disp | none => 0))]
        | none => lines2
      { lines := lines3, chapterNumber := chapterNumber1,
        sceneNumber := scenesOut.2.1, wordsTotal := scenesOut.2.2.1,
        lettersTotal := scenesOut.2.2.2 }

/-- FileExport._get_chapters (file_export.py 554-642): fold the chapter loop
over the chapter order and return the rendered lines. -/
def get_chapters (ex : Exporter) : List String :=
  (ex.srtChapters.foldl (get_chapters_step ex)
    { lines := [], chapterNumber := 0, sceneNumber := 0,
      wordsTotal := 0, lettersTotal := 0 }).lines

/-! ## Concrete instances used by the theorems -/

/-- The chapter-dominance invariant on a model: every scene listed by a
non-Normal chapter of the chapter order carries the chapter's type. -/
def dominanceHolds (m : NovelM) : Prop :=
  ∀ chId ∈ m.srtChapters, ∀ ch, alookup m.chapters chId = some ch →
    ch.chType ≠ some 0 → ∀ scId ∈ ch.srtScenes, ∀ sc,
      alookup m.scenes scId = some sc → sc.scType = ch.chType

/-- A well-formed project tree (PROJECT section present, every entity element
carrying an ID, so Yw7File.read runs to completion) in which the scene with
id 1 is listed by two chapters: chapter 1 of Notes type and chapter 2 of Todo
type.  read_chapters accepts the double listing (its guard only requires the
scene id to exist, yw7_file.py 548-554). -/
def dominanceTree : Elem :=
  .mk "YWRITER7" none [
    .mk "PROJECT" none [
      .mk "Title" (some "P") []],
    .mk "SCENES" none [
      .mk "SCENE" none [
        .mk "ID" (some "1") [],
        .mk "Title" (some "S") []]],
    .mk "CHAPTERS" none [
      .mk "CHAPTER" none [
        .mk "ID" (some "1") [],
        .mk "ChapterType" (some "1") [],
        .mk "Unused" (some "-1") [],
        .mk "Scenes" none [ .mk "ScID" (some "1") [] ]],
      .mk "CHAPTER" none [
        .mk "ID" (some "2") [],
        .mk "ChapterType" (some "2") [],
        .mk "Unused" (some "-1") [],
        .mk "Scenes" none [ .mk "ScID" (some "1") [] ]]]]

/-- The chapter with id 1 as the reader produces it from dominanceTree. -/
def dominanceChapter1 : Chapter :=
  { title := none, desc := none, kwVar := [], chLevel := some 0,
    chType := some 1, suppressChapterTitle := some false, isTrash := none,
    suppressChapterBreak := none, srtScenes := ["1"] }

/-- The scene of the splitter scenario: content with a scene divider line,
non-empty desc, goal, conflict and outcome, status Done. -/
def scenarioScene : Scene :=
  { title := some "Scene one", desc := some "Old desc", goal := some "Old goal",
    conflict := some "Old conflict", outcome := some "Old outcome",
    status := some 3, scType := some 0,
    sceneContent := some "Para one.\n###SplitTitle|Split desc\nPara two." }

/-- One-chapter novel holding the splitter scenario scene. -/
def scenarioNovel : NovelM :=
  { scenes := [("1", scenarioScene)],
    chapters := [("1", { chType := some 0, chLevel := some 0, srtScenes := ["1"] })],
    srtChapters := ["1"] }

/-- The same novel with the parent fields already carrying the warning token,
for the never-doubled half of the scenario. -/
def scenarioNovelMarked : NovelM :=
  { scenes := [("1", { scenarioScene with
      desc := some "(!)Old desc", goal := some "(!)Old goal",
      conflict := some "(!)Old conflict", outcome := some "(!)Old outcome" })],
    chapters := [("1", { chType := some 0, chLevel := some 0, srtScenes := ["1"] })],
    srtChapters := ["1"] }

/-- One-chapter novel whose only scene has id 7 and a scene divider in its
content, for the id-allocation check. -/
def allocNovel : NovelM :=
  { scenes := [("7", { scenarioScene with title := some "Seven" })],
    chapters := [("3", { chType := some 0, chLevel := some 0, srtScenes := ["7"] })],
    srtChapters := ["3"] }

/-- A Normal scene, not suppressed, whose content is raw HTML code. -/
def rawCodeScene : Scene :=
  { scType := some 0, doNotExport := some false,
    sceneContent := some "<HTML>x", wordCount := 5, letterCount := 7 }

/-- An exporter whose single chapter is Unused (chType 3), lists the raw-code
scene, and has only the unused-scene template configured. -/
def rawCodeExporter : Exporter :=
  { scenes := [("1", rawCodeScene)],
    chapters := [("1", { chType := some 3, chLevel := some 0, srtScenes := ["1"] })],
    srtChapters := ["1"],
    unusedSceneTemplate := "U" }

/-- An exporter whose single chapter is Normal and lists the raw-code scene,
with every template configured, for the witness of the amended skip claim. -/
def skipExporter : Exporter :=
  { scenes := [("1", rawCodeScene)],
    chapters := [("1", { chType := some 0, chLevel := some 0, srtScenes := ["1"] })],
    srtChapters := ["1"],
    sceneTemplate := "S", unusedSceneTemplate := "U", sceneDivider := "D" }

/-- A novel with one Notes chapter listing one scene, for the witness of the
amended dominance claim. -/
def adjustWitnessNovel : NovelM :=
  { scenes := [("1", { scType := some 0 })],
    chapters := [("1", { chType := some 1, chLevel := some 0, srtScenes := ["1"] })],
    srtChapters := ["1"] }

/-! # Theorems -/

/-! ## Helper lemmas on the dictionary operations -/

theorem alookup_cons {α : Type} (q : String × α) (l : List (String × α))
    (k : String) :
    alookup (q :: l) k = if q.1 = k then some q.2 else alookup l k := by
  by_cases hq : q.1 = k
  · simp [alookup, List.find?_cons, hq]
  · simp [alookup, List.find?_cons, hq]

theorem dupdate_cons {α : Type} (p : String × α) (rest : List (String × α))
    (k : String) (f : α → α) :
    dupdate (p :: rest) k f =
      (if p.1 = k then (p.1, f p.2) else p) :: dupdate rest k f := rfl

theorem alookup_dupdate_self {α : Type} (m : List (String × α)) (k : String)
    (f : α → α) : alookup (dupdate m k f) k = (alookup m k).map f := by
  induction m with
  | nil => rfl
  | cons p rest ih =>
    rw [dupdate_cons]
    by_cases hp : p.1 = k
    · rw [if_pos hp, alookup_cons, alookup_cons]
      simp [hp]
    · rw [if_neg hp, alookup_cons, alookup_cons]
      simp [hp, ih]

theorem alookup_dupdate_ne {α : Type} (m : List (String × α)) (k : String)
    (f : α → α) (k' : String) (hne : k' ≠ k) :
    alookup (dupdate m k f) k' = alookup m k' := by
  induction m with
  | nil => rfl
  | cons p rest ih =>
    rw [dupdate_cons]
    by_cases hp : p.1 = k
    · have hp' : ¬ p.1 = k' := fun he => hne ((he ▸ hp) : k' = k)
      rw [if_pos hp, alookup_cons, alookup_cons]
      simp [hp', ih]
    · rw [if_neg hp, alookup_cons, alookup_cons]
      by_cases hq : p.1 = k'
      · simp [hq]
      · simp [hq, ih]

/-! ## Helper lemmas on the scene-type normalization pass -/

theorem foldUpd_pres {v : Option Nat} {f : Scene → Scene}
    (hf : ∀ sc, (f sc).scType = v) (L : List String)
    (scs : List (String × Scene)) (scId : String)
    (h : ∀ sc, alookup scs scId = some sc → sc.scType = v) :
    ∀ sc, alookup (L.foldl (fun a i => dupdate a i f) scs) scId = some sc →
      sc.scType = v := by
  induction L generalizing scs with
  | nil => exact h
  | cons i rest ih =>
    simp only [List.foldl_cons]
    apply ih
    intro sc hsc
    by_cases hik : i = scId
    · subst hik
      rw [alookup_dupdate_self] at hsc
      cases hal : alookup scs i with
      | none => rw [hal] at hsc; cases hsc
      | some sc0 =>
        rw [hal] at hsc
        simp only [Option.map_some'] at hsc
        rw [← Option.some_inj.mp hsc]
        exact hf sc0
    · rw [alookup_dupdate_ne scs i f scId (fun he => hik he.symm)] at hsc
      exact h sc hsc

theorem foldUpd_mem {v : Option Nat} {f : Scene → Scene}
    (hf : ∀ sc, (f sc).scType = v) (L : List String)
    (scs : List (String × Scene)) (scId : String) (hmem : scId ∈ L) :
    ∀ sc, alookup (L.foldl (fun a i => dupdate a i f) scs) scId = some sc →
      sc.scType = v := by
  induction L generalizing scs with
  | nil => cases hmem
  | cons i rest ih =>
    simp only [List.foldl_cons]
    by_cases hik : scId = i
    · subst hik
      apply foldUpd_pres hf rest _ scId
      intro sc hsc
      rw [alookup_dupdate_self] at hsc
      cases hal : alookup scs scId with
      | none => rw [hal] at hsc; cases hsc
      | some sc0 =>
        rw [hal] at hsc
        simp only [Option.map_some'] at hsc
        rw [← Option.some_inj.mp hsc]
        exact hf sc0
    · have hrest : scId ∈ rest := by
        cases hmem with
        | head => exact absurd rfl hik
        | tail _ hm => exact hm
      exact ih _ hrest

theorem foldUpd_not_mem {f : Scene → Scene} (L : List String)
    (scs : List (String × Scene)) (scId : String) (h : scId ∉ L) :
    alookup (L.foldl (fun a i => dupdate a i f) scs) scId = alookup scs scId := by
  induction L generalizing scs with
  | nil => rfl
  | cons i rest ih =>
    have h1 : scId ≠ i := fun he => h (he ▸ List.mem_cons_self i rest)
    have h2 : scId ∉ rest := fun hm => h (List.mem_cons_of_mem i hm)
    simp only [List.foldl_cons]
    exact (ih _ h2).trans (alookup_dupdate_ne scs i f scId h1)

theorem adjust_step_chapters (m : NovelM) (chId : String) :
    (adjust_step m chId).chapters = m.chapters ∧
    (adjust_step m chId).srtChapters = m.srtChapters := by
  unfold adjust_step
  split
  · split <;> exact ⟨rfl, rfl⟩
  · exact ⟨rfl, rfl⟩

theorem adjust_fold_chapters (L : List String) (m : NovelM) :
    (L.foldl adjust_step m).chapters = m.chapters ∧
    (L.foldl adjust_step m).srtChapters = m.srtChapters := by
  induction L generalizing m with
  | nil => exact ⟨rfl, rfl⟩
  | cons i rest ih =>
    simp only [List.foldl_cons]
    exact ⟨(ih _).1.trans (adjust_step_chapters m i).1,
           (ih _).2.trans (adjust_step_chapters m i).2⟩

theorem adjust_step_establishes (m : NovelM) (chId : String) (ch : Chapter)
    (hch : alookup m.chapters chId = some ch) (hty : ch.chType ≠ some 0)
    (scId : String) (hmem : scId ∈ ch.srtScenes) :
    ∀ sc, alookup (adjust_step m chId).scenes scId = some sc →
      sc.scType = ch.chType := by
  unfold adjust_step
  rw [hch]
  simp only [if_pos hty]
  exact @foldUpd_mem ch.chType (fun sc => { sc with scType := ch.chType })
    (fun _ => rfl) ch.srtScenes m.scenes scId hmem

theorem adjust_step_untouched (m : NovelM) (c2 : String) (scId : String)
    (hnot : ∀ ch2, alookup m.chapters c2 = some ch2 → scId ∉ ch2.srtScenes) :
    alookup (adjust_step m c2).scenes scId = alookup m.scenes scId := by
  unfold adjust_step
  split
  · rename_i ch2 hal
    split
    · exact foldUpd_not_mem ch2.srtScenes m.scenes scId (hnot ch2 hal)
    · rfl
  · rfl

theorem adjust_fold_preserves (m0 : NovelM) (chId : String) (ch : Chapter)
    (hch : alookup m0.chapters chId = some ch) (hty : ch.chType ≠ some 0)
    (scId : String) (hmem : scId ∈ ch.srtScenes) (L : List String) :
    ∀ acc : NovelM, acc.chapters = m0.chapters →
      (∀ c2 ∈ L, c2 ≠ chId → ∀ ch2, alookup m0.chapters c2 = some ch2 →
        ∀ s ∈ ch.srtScenes, s ∉ ch2.srtScenes) →
      (∀ sc, alookup acc.scenes scId = some sc → sc.scType = ch.chType) →
      ∀ sc, alookup (L.foldl adjust_step acc).scenes scId = some sc →
        sc.scType = ch.chType := by
  induction L with
  | nil => exact fun acc _ _ h => h
  | cons c2 rest ih =>
    intro acc hacc hdisj h
    simp only [List.foldl_cons]
    apply ih (adjust_step acc c2) ((adjust_step_chapters acc c2).1.trans hacc)
      (fun c hc => hdisj c (List.mem_cons_of_mem _ hc))
    by_cases hc2 : c2 = chId
    · subst hc2
      exact adjust_step_establishes acc c2 ch (by rw [hacc]; exact hch) hty scId hmem
    · intro sc hsc
      apply h
      rw [← hsc]
      exact (adjust_step_untouched acc c2 scId
        (fun ch2 hal2 => hdisj c2 (List.mem_cons_self c2 rest) hc2 ch2
          (by rw [← hacc]; exact hal2) scId hmem)).symm

theorem adjust_fold_main (m0 : NovelM)
    (hdisj : ∀ c1 ∈ m0.srtChapters, ∀ c2 ∈ m0.srtChapters, c1 ≠ c2 →
      ∀ ch1, alookup m0.chapters c1 = some ch1 →
      ∀ ch2, alookup m0.chapters c2 = some ch2 →
      ∀ s ∈ ch1.srtScenes, s ∉ ch2.srtScenes)
    (L : List String) :
    ∀ acc : NovelM, (∀ c ∈ L, c ∈ m0.srtChapters) → acc.chapters = m0.chapters →
      ∀ chId ∈ L, ∀ ch, alookup m0.chapters chId = some ch →
        ch.chType ≠ some 0 → ∀ scId ∈ ch.srtScenes,
          ∀ sc, alookup (L.foldl adjust_step acc).scenes scId = some sc →
            sc.scType = ch.chType := by
  induction L with
  | nil => intro acc _ _ chId hmem; cases hmem
  | cons c0 rest ih =>
    intro acc hsub hacc chId hmem ch hch hty scId hmemSc
    simp only [List.foldl_cons]
    by_cases hin : chId ∈ rest
    · exact ih (adjust_step acc c0)
        (fun c hc => hsub c (List.mem_cons_of_mem _ hc))
        ((adjust_step_chapters acc c0).1.trans hacc)
        chId hin ch hch hty scId hmemSc
    · have hc0 : c0 = chId := by
        cases hmem with
        | head => rfl
        | tail _ hm => exact absurd hm hin
      subst hc0
      apply adjust_fold_preserves m0 c0 ch hch hty scId hmemSc rest
        (adjust_step acc c0) ((adjust_step_chapters acc c0).1.trans hacc)
      · intro c2 hc2 hne ch2 hch2 s hs
        exact hdisj c0 (hsub c0 (List.mem_cons_self c0 rest)) c2
          (hsub c2 (List.mem_cons_of_mem _ hc2)) (fun he => hne he.symm)
          ch hch ch2 hch2 s hs
      · exact adjust_step_establishes acc c0 ch (by rw [hacc]; exact hch) hty
          scId hmemSc

set_option maxRecDepth 10000 in
/-- C4 counterexample: Yw7File.read completes successfully on a well-formed
project file in which one scene is listed by two chapters of different
non-Normal types (first conjunct: the guarded read yields the section state);
after the normalization pass the scene carries the second chapter's type, so
the first Notes chapter of the chapter order lists a scene whose type is not
the chapter's. -/
theorem C4_dominance_counterexample :
    readModel dominanceTree = some (readSections dominanceTree) ∧
    ¬ dominanceHolds (readSections dominanceTree) := by
  refine ⟨by decide, ?_⟩
  intro h
  have hch : alookup (readSections dominanceTree).chapters "1" =
      some dominanceChapter1 := by decide
  have hmem : "1" ∈ (readSections dominanceTree).srtChapters := by decide
  cases hal : alookup (readSections dominanceTree).scenes "1" with
  | none => exact absurd hal (by decide)
  | some sc =>
    have h2 := h "1" hmem dominanceChapter1 hch (by decide) "1" (by decide) sc hal
    have h3 : (alookup (readSections dominanceTree).scenes "1").map Scene.scType =
        some (some 2) := by decide
    rw [hal] at h3
    simp only [Option.map_some'] at h3
    rw [h2] at h3
    exact absurd h3 (by decide)

/-- C4 amended: after the adjust_scene_types pass that closes both read and
merge, the dominance invariant holds for every model in which no scene is
listed by two distinct chapters of the chapter order: every chapter of the
order whose type is not Normal has all its listed scenes carrying the
chapter's type.  (Without the disjointness hypothesis a later chapter's pass
overwrites an earlier chapter's assignment, as the counterexample shows.) -/
theorem C4_dominance_amended (m : NovelM)
    (hdisj : ∀ c1 ∈ m.srtChapters, ∀ c2 ∈ m.srtChapters, c1 ≠ c2 →
      ∀ ch1, alookup m.chapters c1 = some ch1 →
      ∀ ch2, alookup m.chapters c2 = some ch2 →
      ∀ s ∈ ch1.srtScenes, s ∉ ch2.srtScenes) :
    dominanceHolds (adjust_scene_types m) := by
  intro chId hmemCh ch hch hty scId hmemSc sc hsc
  unfold adjust_scene_types at hmemCh hch hsc
  rw [(adjust_fold_chapters m.srtChapters m).2] at hmemCh
  rw [(adjust_fold_chapters m.srtChapters m).1] at hch
  exact adjust_fold_main m hdisj m.srtChapters m (fun c hc => hc) rfl
    chId hmemCh ch hch hty scId hmemSc sc hsc

/-- C4 amended, applied to a one-chapter novel (its single Notes chapter
trivially satisfies the disjointness hypothesis). -/
theorem C4_dominance_witness :
    dominanceHolds (adjust_scene_types adjustWitnessNovel) := by
  apply C4_dominance_amended
  intro c1 h1 c2 h2 hne
  have e1 : c1 = "1" := by simpa [adjustWitnessNovel] using h1
  have e2 : c2 = "1" := by simpa [adjustWitnessNovel] using h2
  exact absurd (e1.trans e2.symm) hne

/-! ## Helper lemmas on decimal id strings and create_id -/

theorem digitVal_digitChar (d : Nat) (h : d < 10) :
    digitVal (digitChar d) = d := by
  interval_cases d <;> decide

theorem natToStrGo_foldl (fuel : Nat) :
    ∀ (n : Nat) (acc : List Char), n ≤ fuel ∨ n < 10 →
      (natToStrGo fuel n acc).foldl (fun a c => 10 * a + digitVal c) 0 =
        acc.foldl (fun a c => 10 * a + digitVal c) n := by
  induction fuel with
  | zero =>
    intro n acc h
    have hn : n < 10 := by omega
    show ((digitChar n :: acc).foldl (fun a c => 10 * a + digitVal c) 0) = _
    simp [digitVal_digitChar n hn]
  | succ fuel ih =>
    intro n acc h
    by_cases hn : n < 10
    · show ((if n < 10 then digitChar n :: acc
          else natToStrGo fuel (n / 10) (digitChar (n % 10) :: acc)).foldl
            (fun a c => 10 * a + digitVal c) 0) = _
      rw [if_pos hn]
      simp [digitVal_digitChar n hn]
    · show ((if n < 10 then digitChar n :: acc
          else natToStrGo fuel (n / 10) (digitChar (n % 10) :: acc)).foldl
            (fun a c => 10 * a + digitVal c) 0) = _
      rw [if_neg hn]
      have hfuel : n ≤ fuel + 1 := h.resolve_right hn
      have hdiv : n / 10 ≤ fuel ∨ n / 10 < 10 := by
        left
        have := Nat.div_lt_self (by omega : 0 < n) (by norm_num : 1 < 10)
        omega
      rw [ih (n / 10) _ hdiv]
      simp only [List.foldl_cons]
      rw [digitVal_digitChar (n % 10) (Nat.mod_lt n (by norm_num))]
      congr 1
      omega

theorem pyInt_natToStr (n : Nat) : pyInt (natToStr n) = n := by
  have h := natToStrGo_foldl n n [] (Or.inl le_rfl)
  simpa [pyInt, natToStr, listVal] using h

theorem natToStr_injective : Function.Injective natToStr := by
  intro a b h
  have ha := pyInt_natToStr a
  rw [h, pyInt_natToStr] at ha
  exact ha.symm

theorem exists_unused_id (elements : List String) :
    ∃ j, 1 ≤ j ∧ j < elements.length + 2 ∧ natToStr j ∉ elements := by
  by_contra hcon
  push_neg at hcon
  have hmap : ∀ x ∈ (List.range (elements.length + 1)).map
      (fun k => natToStr (k + 1)), x ∈ elements := by
    intro x hx
    simp only [List.mem_map, List.mem_range] at hx
    obtain ⟨k, hk, rfl⟩ := hx
    exact hcon (k + 1) (by omega) (by omega)
  have hnd : ((List.range (elements.length + 1)).map
      (fun k => natToStr (k + 1))).Nodup :=
    (List.nodup_range _).map (fun a b hab => by
      have := natToStr_injective hab
      omega)
  have hsub : ((List.range (elements.length + 1)).map
      (fun k => natToStr (k + 1))).toFinset ⊆ elements.toFinset := by
    intro x hx
    rw [List.mem_toFinset] at hx ⊢
    exact hmap x hx
  have h1 : ((List.range (elements.length + 1)).map
      (fun k => natToStr (k + 1))).toFinset.card = elements.length + 1 := by
    rw [List.toFinset_card_of_nodup hnd]
    simp
  have h2 := Finset.card_le_card hsub
  have h3 := elements.toFinset_card_le
  omega

theorem create_idGo_spec (elements : List String) :
    ∀ (fuel i : Nat), (∃ j, i ≤ j ∧ j < i + fuel ∧ natToStr j ∉ elements) →
      ∃ n, i ≤ n ∧ create_idGo elements i fuel = natToStr n ∧
        natToStr n ∉ elements ∧ ∀ m, i ≤ m → m < n → natToStr m ∈ elements := by
  intro fuel
  induction fuel with
  | zero =>
    intro i h
    obtain ⟨j, hj1, hj2, _⟩ := h
    exact absurd hj2 (by omega)
  | succ fuel ih =>
    intro i h
    obtain ⟨j, hj1, hj2, hj3⟩ := h
    by_cases hmem : natToStr i ∈ elements
    · have hji : j ≠ i := fun he => hj3 (he ▸ hmem)
      obtain ⟨n, hn1, hn2, hn3, hn4⟩ := ih (i + 1) ⟨j, by omega, by omega, hj3⟩
      refine ⟨n, by omega, ?_, hn3, ?_⟩
      · show create_idGo elements i (fuel + 1) = natToStr n
        unfold create_idGo
        rw [if_pos hmem]
        exact hn2
      · intro m hm1 hm2
        by_cases hmi : m = i
        · rw [hmi]
          exact hmem
        · exact hn4 m (by omega) hm2
    · refine ⟨i, le_rfl, ?_, hmem, fun m hm1 hm2 => absurd hm1 (by omega)⟩
      unfold create_idGo
      rw [if_neg hmem]

set_option maxRecDepth 10000 in
/-- C8 amended: create_id allocates the smallest positive integer whose
decimal string is not among the existing ids — fresh at creation time but not
max(existing ids)+1, so gaps below the maximum are reused; the Splitter's own
allocation does run at max+1, as the concrete split of a novel whose only
scene has id 7 shows: the new scene is stored and listed under str(7+1). -/
theorem C8_id_allocation_amended (elements : List String) :
    (∃ n, 1 ≤ n ∧ create_id elements = natToStr n ∧ natToStr n ∉ elements ∧
      ∀ m, 1 ≤ m → m < n → natToStr m ∈ elements) ∧
    (split_scenes allocNovel).1.scenes.map Prod.fst =
      ["7", natToStr (pyInt "7" + 1)] ∧
    (alookup (split_scenes allocNovel).1.chapters "3").map Chapter.srtScenes =
      some ["7", natToStr (pyInt "7" + 1)] := by
  refine ⟨?_, by decide, by decide⟩
  obtain ⟨j, hj1, hj2, hj3⟩ := exists_unused_id elements
  have h := create_idGo_spec elements (elements.length + 1) 1
    ⟨j, hj1, by omega, hj3⟩
  exact h

/-- C8 amended, applied to the concrete id set 1,2,3 (the allocator returns
the decimal string of the least unused positive integer). -/
theorem C8_id_allocation_witness :
    ∃ n, 1 ≤ n ∧ create_id ["1", "2", "3"] = natToStr n ∧
      natToStr n ∉ ["1", "2", "3"] ∧
      ∀ m, 1 ≤ m → m < n → natToStr m ∈ ["1", "2", "3"] :=
  (C8_id_allocation_amended ["1", "2", "3"]).1

/-! ## Helper lemma for the merge rules -/

theorem truthyStr_isSome {o : Option String} (h : truthyStr o = true) :
    o.isSome = true := by
  cases o with
  | none => exact absurd h (by decide)
  | some s => rfl

set_option maxRecDepth 4000 in
/-- C5: the per-field merge rules.  For each entity kind, a blank (absent or
empty) source title leaves the target's title, a non-blank one overwrites it;
every other field carried by the source with a present value overwrites the
corresponding target field (for the location image the target value is never
kept, the source assigns desc in the else branch of the image guard); a
non-blank source date or time overwrites the target's. -/
theorem C5_merge_non_destructive (srcW tgtW : WorldElement) (srcS tgtS : Scene)
    (cIds lIds iIds : List String) (srcP tgtP : ProjectFields) :
    ((merge_location_entry srcW tgtW).title =
      if truthyStr srcW.title then srcW.title else tgtW.title) ∧
    ((merge_location_entry srcW tgtW).image =
      if srcW.image.isSome then srcW.image else none) ∧
    ((merge_location_entry srcW tgtW).desc =
      if srcW.desc.isSome then srcW.desc else tgtW.desc) ∧
    ((merge_location_entry srcW tgtW).aka =
      if srcW.aka.isSome then srcW.aka else tgtW.aka) ∧
    ((merge_location_entry srcW tgtW).tags =
      if srcW.tags.isSome then srcW.tags else tgtW.tags) ∧
    ((merge_scene_entry srcS tgtS cIds lIds iIds).title =
      if truthyStr srcS.title then srcS.title else tgtS.title) ∧
    ((merge_scene_entry srcS tgtS cIds lIds iIds).desc =
      if srcS.desc.isSome then srcS.desc else tgtS.desc) ∧
    ((merge_scene_entry srcS tgtS cIds lIds iIds).sceneContent =
      if srcS.sceneContent.isSome then srcS.sceneContent
      else tgtS.sceneContent) ∧
    ((merge_scene_entry srcS tgtS cIds lIds iIds).scType =
      if srcS.scType.isSome then srcS.scType else tgtS.scType) ∧
    ((merge_scene_entry srcS tgtS cIds lIds iIds).status =
      if srcS.status.isSome then srcS.status else tgtS.status) ∧
    ((merge_scene_entry srcS tgtS cIds lIds iIds).notes =
      if srcS.notes.isSome then srcS.notes else tgtS.notes) ∧
    ((merge_scene_entry srcS tgtS cIds lIds iIds).goal =
      if srcS.goal.isSome then srcS.goal else tgtS.goal) ∧
    ((merge_scene_entry srcS tgtS cIds lIds iIds).conflict =
      if srcS.conflict.isSome then srcS.conflict else tgtS.conflict) ∧
    ((merge_scene_entry srcS tgtS cIds lIds iIds).outcome =
      if srcS.outcome.isSome then srcS.outcome else tgtS.outcome) ∧
    (truthyStr srcS.date = true →
      (merge_scene_entry srcS tgtS cIds lIds iIds).date = srcS.date) ∧
    (truthyStr srcS.time = true →
      (merge_scene_entry srcS tgtS cIds lIds iIds).time = srcS.time) ∧
    ((merge_project_fields srcP tgtP).title =
      if truthyStr srcP.title then srcP.title else tgtP.title) ∧
    ((merge_project_fields srcP tgtP).desc =
      if srcP.desc.isSome then srcP.desc else tgtP.desc) ∧
    ((merge_project_fields srcP tgtP).authorName =
      if srcP.authorName.isSome then srcP.authorName else tgtP.authorName) := by
  refine ⟨?_, ?_, ?_, ?_, ?_, ?_, ?_, ?_, ?_, ?_, ?_, ?_, ?_, ?_, ?_, ?_,
    ?_, ?_, ?_⟩
  · simp [merge_location_entry, apply_ite WorldElement.title]
  · simp [merge_location_entry, apply_ite WorldElement.image]
  · simp [merge_location_entry, apply_ite WorldElement.desc]
  · simp [merge_location_entry, apply_ite WorldElement.aka]
  · simp [merge_location_entry, apply_ite WorldElement.tags]
  · simp [merge_scene_entry, merge_scene_rest, merge_scene_scalars]
  · simp [merge_scene_entry, merge_scene_rest, merge_scene_scalars]
  · simp [merge_scene_entry, merge_scene_rest, merge_scene_scalars]
  · simp [merge_scene_entry, merge_scene_rest, merge_scene_scalars]
  · simp [merge_scene_entry, merge_scene_rest, merge_scene_scalars]
  · simp [merge_scene_entry, merge_scene_rest, merge_scene_scalars]
  · simp [merge_scene_entry, merge_scene_rest, merge_scene_scalars]
  · simp [merge_scene_entry, merge_scene_rest, merge_scene_scalars]
  · simp [merge_scene_entry, merge_scene_rest, merge_scene_scalars]
  · intro h
    have hs := truthyStr_isSome h
    simp [merge_scene_entry, merge_scene_rest, h, hs]
  · intro h
    have hs := truthyStr_isSome h
    simp [merge_scene_entry, merge_scene_rest, h, hs]
  · simp [merge_project_fields]
  · simp [merge_project_fields]
  · simp [merge_project_fields]

/-! ## Helper lemma on the raw-code content markers -/

theorem startsWith_TEX_not_HTML (s : String)
    (h : pyStartsWith s "<TEX>" = true) :
    pyStartsWith s "<HTML>" = false := by
  rcases s with ⟨d⟩
  match d with
  | [] => exact absurd h (by decide)
  | [c1] =>
    simp [pyStartsWith, isPrefixOfList] at h
  | c1 :: c2 :: d2 =>
    simp only [pyStartsWith, isPrefixOfList] at h ⊢
    simp only [decide_eq_true_eq] at h
    obtain ⟨h1, h2, _⟩ := h
    simp [← h1, ← h2]

set_option maxRecDepth 10000 in
/-- C10 amended: the raw-code skip holds for scenes of chapters that are not
Unused: a Normal scene (scType 0), not suppressed individually or through the
chapter flag, whose content starts with the HTML or TeX marker, leaves the
scene loop state untouched — no template output, no divider, no count change.
(The filter gate can only remove more; when the chapter is Unused the
unused-scene tier precedes the raw-code check, as the counterexample shows.) -/
theorem C10_raw_code_skip_amended (ex : Exporter) (chId scId : String)
    (st : ScState) (dne : Bool) (sc : Scene) (ch : Chapter)
    (hsc : alookup ex.scenes scId = some sc)
    (hch : alookup ex.chapters chId = some ch)
    (hty : sc.scType = some 0)
    (hchty : ch.chType ≠ some 3)
    (hdne : truthyBool sc.doNotExport = false)
    (hdne2 : dne = false)
    (hraw : pyStartsWith (sc.sceneContent.getD "") "<HTML>" = true ∨
            pyStartsWith (sc.sceneContent.getD "") "<TEX>" = true) :
    get_scenes_step ex chId dne st scId = st := by
  subst hdne2
  unfold get_scenes_step
  rw [hsc, hch]
  by_cases hf : ex.sceneFilter scId = true
  · rcases hraw with hH | hT
    · simp [hf, hty, hchty, hdne, hH]
    · have hH : pyStartsWith (sc.sceneContent.getD "") "<HTML>" = false :=
        startsWith_TEX_not_HTML _ hT
      simp [hf, hty, hchty, hdne, hH, hT]
  · simp [hf]

/-- C10 amended, applied to a Normal chapter holding the raw-code scene with
every scene template configured: the loop state passes through unchanged. -/
theorem C10_raw_code_skip_witness :
    get_scenes_step skipExporter "1" false
      { lines := [], sceneNumber := 3, wordsTotal := 10, lettersTotal := 20,
        firstSceneInChapter := true } "1" =
      { lines := [], sceneNumber := 3, wordsTotal := 10, lettersTotal := 20,
        firstSceneInChapter := true } :=
  C10_raw_code_skip_amended skipExporter "1" "1"
    { lines := [], sceneNumber := 3, wordsTotal := 10, lettersTotal := 20,
      firstSceneInChapter := true }
    false rawCodeScene
    { chType := some 0, chLevel := some 0, srtScenes := ["1"] }
    (by decide) (by decide) (by decide) (by decide) (by decide) rfl
    (Or.inl (by decide))

set_option maxRecDepth 10000 in
/-- C6: the sceneContent setter derives wordCount and letterCount from the
assigned string alone, independent of the scene's prior state; the reference
string "Hello [b]world[/b]." counts 2 words, the bracketed markup being
removed before the split, and 12 letters. -/
theorem C6_word_count_determinism :
    (∀ (sc1 sc2 : Scene) (s : String),
      (set_sceneContent sc1 s).wordCount = (set_sceneContent sc2 s).wordCount ∧
      (set_sceneContent sc1 s).letterCount = (set_sceneContent sc2 s).letterCount ∧
      (set_sceneContent sc1 s).wordCount = wordCountOf s ∧
      (set_sceneContent sc1 s).letterCount = letterCountOf s) ∧
    wordCountOf "Hello [b]world[/b]." = 2 ∧
    letterCountOf "Hello [b]world[/b]." = 12 :=
  ⟨fun _ _ _ => ⟨rfl, rfl, rfl, rfl⟩, by decide, by decide⟩

set_option maxRecDepth 10000 in
/-- C2: for every normalized kind 0..3, decoding the signals produced by the
scene-type and chapter-type encode tables yields the kind back, and encoding
the kind decoded from each of the four table rows reproduces the row verbatim. -/
theorem C2_codec_round_trip :
    ∀ k : Fin 4,
      decode_scType (encode_scType k).1 ((encode_scType k).2.map some) = k.val ∧
      decode_chType (encode_chType k).1
        (some (some (encode_chType k).2.1)) (some (some (encode_chType k).2.2)) = k.val ∧
      encode_scType
        (decode_scType (encode_scType k).1 ((encode_scType k).2.map some)) =
        encode_scType k ∧
      encode_chType
        (decode_chType (encode_chType k).1
          (some (some (encode_chType k).2.1)) (some (some (encode_chType k).2.2))) =
        encode_chType k := by
  decide

set_option maxRecDepth 10000 in
/-- C3: splitting the scenario scene (content "Para one.", a "###" heading
line carrying title and description, "Para two.") yields the parent scene
holding only "Para one.", a new scene "2" titled "SplitTitle" with description
"Split desc" and content "Para two.", appended after the parent in the
chapter's scene order; the parent's non-empty desc, goal, conflict and outcome
take the warning-token prefix, and a parent already carrying the token is not
marked twice. -/
theorem C3_splitter_scenario :
    ((split_scenes scenarioNovel).2 = true) ∧
    ((alookup (split_scenes scenarioNovel).1.scenes "1").map Scene.sceneContent =
      some (some "Para one.")) ∧
    ((alookup (split_scenes scenarioNovel).1.scenes "1").map Scene.desc =
      some (some "(!)Old desc")) ∧
    ((alookup (split_scenes scenarioNovel).1.scenes "1").map Scene.goal =
      some (some "(!)Old goal")) ∧
    ((alookup (split_scenes scenarioNovel).1.scenes "1").map Scene.conflict =
      some (some "(!)Old conflict")) ∧
    ((alookup (split_scenes scenarioNovel).1.scenes "1").map Scene.outcome =
      some (some "(!)Old outcome")) ∧
    ((alookup (split_scenes scenarioNovel).1.scenes "2").map Scene.title =
      some (some "SplitTitle")) ∧
    ((alookup (split_scenes scenarioNovel).1.scenes "2").map Scene.desc =
      some (some "Split desc")) ∧
    ((alookup (split_scenes scenarioNovel).1.scenes "2").map Scene.sceneContent =
      some (some "Para two.")) ∧
    ((alookup (split_scenes scenarioNovel).1.chapters "1").map Chapter.srtScenes =
      some ["1", "2"]) ∧
    ((alookup (split_scenes scenarioNovelMarked).1.scenes "1").map Scene.desc =
      some (some "(!)Old desc")) ∧
    ((alookup (split_scenes scenarioNovelMarked).1.scenes "1").map Scene.goal =
      some (some "(!)Old goal")) ∧
    ((alookup (split_scenes scenarioNovelMarked).1.scenes "1").map Scene.conflict =
      some (some "(!)Old conflict")) ∧
    ((alookup (split_scenes scenarioNovelMarked).1.scenes "1").map Scene.outcome =
      some (some "(!)Old outcome")) := by
  decide

set_option maxRecDepth 10000 in
/-- C1: the round trip is broken by the XML post-processing pass: the splice
replacement that deletes a line break before "]]" eats a newline that ends the
scene content itself, so a serialized scene whose content ends in a newline
comes back without it.  The first conjunct is the exact output of the pass on
such a file; the others state that the CDATA section holds "Para." where the
preserved content would need "Para.\n". -/
theorem C1_postprocess_newline_bug :
    postprocess_xml_text "<SceneContent>Para.\n</SceneContent>" =
      "<?xml version=\"1.0\" encoding=\"utf-8\"?>\n<SceneContent><![CDATA[Para.]]></SceneContent>" ∧
    postprocess_xml_text "<SceneContent>Para.\n</SceneContent>" ≠
      "<?xml version=\"1.0\" encoding=\"utf-8\"?>\n<SceneContent><![CDATA[Para.\n]]></SceneContent>" ∧
    ("Para." : String) ≠ "Para.\n" := by
  exact ⟨by decide, by decide, by decide⟩

/-- C7 counterexample: the source's read makes exactly one parse attempt, so
on a file whose UTF-8 parse fails it reports the error even when the UTF-16
fallback described by the spec would parse the file; the spec-modelled
fallback reader succeeds on the same input. -/
theorem C7_utf16_fallback_counterexample :
    yw7_read_parse false "x.yw7" none =
      .error ("!" ++ "Can not process file: \"x.yw7\".") ∧
    yw7_read_parse_withFallback false "x.yw7" none (some (.mk "YWRITER7" none [])) =
      .ok (.mk "YWRITER7" none []) :=
  ⟨rfl, rfl⟩

/-- C7 amended: whenever the XML project file cannot be parsed, Yw7File.read
fails by returning an error message string marked with the ERROR prefix
character (no exception escapes the bare except); there is no second parse
attempt, the outcome for every unparseable file is this error. -/
theorem C7_malformed_error_amended (path : String) :
    yw7_read_parse false path none =
      .error ("!" ++ "Can not process file: \"" ++ path ++ "\".") ∧
    ("!" ++ "Can not process file: \"" ++ path ++ "\".").data.head? = some '!' := by
  cases path with
  | mk d => exact ⟨rfl, rfl⟩

/-- C7 amended, applied at a concrete path. -/
theorem C7_malformed_error_witness :
    yw7_read_parse false "x2.yw7" none =
      .error ("!" ++ "Can not process file: \"x2.yw7\".") ∧
    ("!" ++ "Can not process file: \"x2.yw7\".").data.head? = some '!' :=
  C7_malformed_error_amended "x2.yw7"

set_option maxRecDepth 10000 in
/-- C8 counterexample: create_id does not allocate max(existing ids)+1: on the
id set with the single member "2" it returns "1", reusing the gap below the
maximum, where max+1 would be "3". -/
theorem C8_id_allocation_counterexample :
    create_id ["2"] = "1" ∧ natToStr (pyInt "2" + 1) = "3" ∧
    ("1" : String) ≠ "3" := by
  exact ⟨by decide, by decide, by decide⟩

set_option maxRecDepth 10000 in
/-- C9 counterexample: a failure of the rewrite inside _postprocess_xml_file,
after _write_element_tree succeeded, leaves the half-written content at the
target path and the stale backup at the .bak sibling: the backup "OLD" is not
restored, the path ends up holding the partial content "PART". -/
theorem C9_backup_restore_counterexample :
    yw7_write false "NEW" true "" false "PART" "f.yw7" ⟨some "OLD", none⟩ =
      ("!" ++ "Cannot write file: \"f.yw7\".",
       { orig := some "PART", bak := some "OLD" }) ∧
    (some "PART" : Option String) ≠ some "OLD" := by
  exact ⟨by decide, by decide⟩

/-- C9 amended: the element-tree write stage itself is atomic: a failure
inside _write_element_tree restores the .bak backup to the original name, and
so does a write failure in FileExport.write; only a failure of the later
rewrite in _postprocess_xml_file leaves the half-written file and the stale
backup behind. -/
theorem C9_backup_restore_amended (c tp pp serialized text path : String)
    (b : Option String) :
    write_element_tree false serialized tp path ⟨some c, b⟩ =
      ("!" ++ "Cannot write file: \"" ++ path ++ "\".", ⟨some c, none⟩) ∧
    yw7_write false serialized false tp true pp path ⟨some c, b⟩ =
      ("!" ++ "Cannot write file: \"" ++ path ++ "\".", ⟨some c, none⟩) ∧
    yw7_write false serialized true tp false pp path ⟨some c, b⟩ =
      ("!" ++ "Cannot write file: \"" ++ path ++ "\".", ⟨some pp, some c⟩) ∧
    file_export_write text true false tp path ⟨some c, b⟩ =
      ("!" ++ "Cannot write file: \"" ++ path ++ "\".", ⟨some c, none⟩) := by
  cases path with
  | mk d => exact ⟨rfl, rfl, rfl, rfl⟩

/-- C9 amended, applied at concrete content and paths. -/
theorem C9_backup_restore_witness :
    write_element_tree false "NEW" "PART" "g.yw7" ⟨some "OLD", none⟩ =
      ("!" ++ "Cannot write file: \"g.yw7\".", ⟨some "OLD", none⟩) ∧
    yw7_write false "NEW" false "PART" true "PP" "g.yw7" ⟨some "OLD", none⟩ =
      ("!" ++ "Cannot write file: \"g.yw7\".", ⟨some "OLD", none⟩) ∧
    yw7_write false "NEW" true "PART" false "PP" "g.yw7" ⟨some "OLD", none⟩ =
      ("!" ++ "Cannot write file: \"g.yw7\".", ⟨some "PP", some "OLD"⟩) ∧
    file_export_write "TXT" true false "PART" "g.yw7" ⟨some "OLD", none⟩ =
      ("!" ++ "Cannot write file: \"g.yw7\".", ⟨some "OLD", none⟩) :=
  C9_backup_restore_amended "OLD" "PART" "PP" "NEW" "TXT" "g.yw7" none

set_option maxRecDepth 10000 in
/-- C10 counterexample: a Normal scene accepted by the filter, not suppressed,
whose content starts with the raw-code marker, is not omitted when its chapter
is Unused: the unused-scene template tier is selected before the raw-code
check, so the engine renders it. -/
theorem C10_raw_code_skip_counterexample :
    get_chapters rawCodeExporter = ["U"] ∧
    rawCodeScene.scType = some 0 ∧
    truthyBool rawCodeScene.doNotExport = false ∧
    rawCodeExporter.sceneFilter "1" = true ∧
    pyStartsWith (rawCodeScene.sceneContent.getD "") "<HTML>" = true ∧
    alookup rawCodeExporter.scenes "1" = some rawCodeScene := by
  exact ⟨by decide, by decide, by decide, rfl, by decide, by decide⟩

end YW2Html
